import Mathlib

/-!
Verification of the nl2sql query-synthesis-and-repair pipeline.

The development shallowly embeds the TypeScript sources of the repository:
`sql-validator.service.ts` (`validateAndFixSql`), `planner.service.ts`
(`buildSqlFromIntent`, `fallbackExtractIntent`, `generateMatrimonialSQL`),
`executor.service.ts` (`executeMatrimonialQuery`) and the `/api/ask` and
`/api/execute` handlers of `app.ts`.  Strings are `List Char`; the JavaScript
regular expressions used by the sources are embedded through a small
backtracking matcher (`RE`, `mtch`, `reSearch`, `replaceFirst`, `replaceAll`)
that reproduces leftmost search, ordered alternation, greedy/lazy repetition
over character classes, word boundaries, capture groups and global
non-overlapping replacement, which is all these sources use.
-/

abbrev Str := List Char

/-- JavaScript `\s` restricted to ASCII (the only characters the sources manipulate). -/
def jsSpace (c : Char) : Bool :=
  c == ' ' || c == '\t' || c == '\n' || c == '\r' || c == '\x0b' || c == '\x0c'

/-- JavaScript `\d`. -/
def jsDigit (c : Char) : Bool := '0' ≤ c && c ≤ '9'

/-- ASCII letter. -/
def asciiLetter (c : Char) : Bool := ('a' ≤ c && c ≤ 'z') || ('A' ≤ c && c ≤ 'Z')

/-- JavaScript `\w` (word character). -/
def jsWord (c : Char) : Bool := asciiLetter c || jsDigit c || c == '_'

/-- Lowercase a string, as JavaScript `toLowerCase` does on ASCII. -/
def lowerStr (s : Str) : Str := s.map Char.toLower

/-- JavaScript `String.prototype.trim`. -/
def trimStr (s : Str) : Str :=
  ((s.dropWhile jsSpace).reverse.dropWhile jsSpace).reverse

/-- JavaScript `String.prototype.trimEnd`. -/
def trimEndStr (s : Str) : Str :=
  (s.reverse.dropWhile jsSpace).reverse

/-- JavaScript `String.prototype.includes` (case-sensitive substring test). -/
def containsSub (needle : Str) : Str → Bool
  | [] => needle.isEmpty
  | c :: cs => needle.isPrefixOf (c :: cs) || containsSub needle cs

/-- Case-insensitive substring test (used to model `/pat/i.test` on fixed words). -/
def containsSubCI (needle s : Str) : Bool := containsSub (lowerStr needle) (lowerStr s)

/-- Regular-expression abstract syntax: exactly the constructs appearing in the
repository's patterns.  Repetition only ever ranges over single-character
classes there, which keeps the matcher structurally recursive. -/
inductive RE where
  | eps
  | cls (p : Char → Bool)
  | lit (s : Str) (ci : Bool)
  | seq (a b : RE)
  | alt (a b : RE)
  | opt (a : RE)
  | repc (p : Char → Bool) (mn : Nat) (mx : Option Nat) (lazy : Bool)
  | grp (i : Nat) (a : RE)
  | bnd
  | eos

/-- Captured groups: group index paired with the captured text. -/
abbrev Caps := List (Nat × Str)

/-- Matcher continuations produce the remaining input and the captures. -/
abbrev MRes := Str × Caps

/-- Match a literal, threading the previous character (for word boundaries). -/
def litStep (ci : Bool) : Str → Option Char → Str → (Option Char → Str → Option MRes) → Option MRes
  | [], prev, inp, k => k prev inp
  | l :: ls, _, inp, k =>
    match inp with
    | [] => none
    | c :: cs =>
      if (if ci then c.toLower == l.toLower else c == l) then litStep ci ls (some c) cs k
      else none

/-- Mandatory part of a repetition: exactly `mn` further characters of class `p`. -/
def repMin (p : Char → Bool) : Nat → Option Char → Str → (Option Char → Str → Option MRes) → Option MRes
  | 0, prev, inp, k => k prev inp
  | m + 1, _, inp, k =>
    match inp with
    | [] => none
    | c :: cs => if p c then repMin p m (some c) cs k else none

/-- Optional part of a repetition: up to `mx` (`none` = unbounded) characters of
class `p`; `lazy` selects shortest-first backtracking order, as in JavaScript. -/
def repOpt (p : Char → Bool) (mx : Option Nat) (lazy : Bool) (prev : Option Char) (inp : Str)
    (k : Option Char → Str → Option MRes) : Option MRes :=
  match inp with
  | [] => k prev []
  | c :: cs =>
    let stop := k prev (c :: cs)
    let goMore : Option MRes :=
      if p c && mx != some 0 then repOpt p (mx.map (· - 1)) lazy (some c) cs k else none
    if lazy then stop <|> goMore else goMore <|> stop

/-- At a word boundary (`\b`): word-ness differs between the two sides. -/
def atBoundary (prev next : Option Char) : Bool :=
  (prev.elim false jsWord) != (next.elim false jsWord)

/-- Backtracking matcher in continuation-passing style.  `prev` is the character
just before the current position (for `\b`), `caps` the captures so far. -/
def mtch : RE → Option Char → Str → Caps → (Option Char → Str → Caps → Option MRes) → Option MRes
  | .eps, prev, inp, caps, k => k prev inp caps
  | .cls p, prev, inp, caps, k =>
    match inp with
    | [] => none
    | c :: cs => if p c then k (some c) cs caps else none
  | .lit s ci, prev, inp, caps, k => litStep ci s prev inp (fun p' i' => k p' i' caps)
  | .seq a b, prev, inp, caps, k => mtch a prev inp caps (fun p' i' c' => mtch b p' i' c' k)
  | .alt a b, prev, inp, caps, k => mtch a prev inp caps k <|> mtch b prev inp caps k
  | .opt a, prev, inp, caps, k => mtch a prev inp caps k <|> k prev inp caps
  | .repc p mn mx lazy, prev, inp, caps, k =>
    repMin p mn prev inp (fun p2 i2 =>
      repOpt p (mx.map (· - mn)) lazy p2 i2 (fun p3 i3 => k p3 i3 caps))
  | .grp i a, prev, inp, caps, k =>
    mtch a prev inp caps (fun p' i' c' =>
      k p' i' ((i, inp.take (inp.length - i'.length)) :: c'))
  | .bnd, prev, inp, caps, k =>
    if atBoundary prev inp.head? then k prev inp caps else none
  | .eos, prev, inp, caps, k =>
    if inp.isEmpty then k prev inp caps else none

/-- Leftmost search: first start position (scanning left to right) at which the
pattern matches; returns start index, match length and captures. -/
def searchAux (r : RE) : Option Char → Str → Nat → Option (Nat × Nat × Caps)
  | prev, inp, start =>
    match mtch r prev inp [] (fun _ rest caps => some (rest, caps)) with
    | some (rest, caps) => some (start, inp.length - rest.length, caps)
    | none =>
      match inp with
      | [] => none
      | c :: cs => searchAux r (some c) cs (start + 1)

/-- Search from the beginning of the string. -/
def reSearch (r : RE) (s : Str) : Option (Nat × Nat × Caps) := searchAux r none s 0

/-- JavaScript `re.test(s)`. -/
def reTest (r : RE) (s : Str) : Bool := (reSearch r s).isSome

/-- Look up a capture group (JavaScript `match[i]`, absent group as `none`). -/
def capGet (caps : Caps) (i : Nat) : Option Str :=
  (caps.find? (fun c => c.1 == i)).map (fun c => c.2)

/-- JavaScript non-global `s.replace(re, f)`: replace the leftmost match. -/
def replaceFirst (r : RE) (f : Caps → Str → Str) (s : Str) : Str :=
  match reSearch r s with
  | none => s
  | some (st, len, caps) =>
    s.take st ++ f caps ((s.drop st).take len) ++ s.drop (st + len)

/-- JavaScript global `s.replace(re, f)` with an occurrence counter threaded to
the callback (the sources use stateful callbacks); matches are found in the
original string, non-overlapping, left to right. -/
def replaceAllAux (r : RE) (f : Nat → Caps → Str → Str) :
    Nat → Option Char → Str → Nat → Str × Nat
  | 0, _, inp, occ => (inp, occ)
  | fuel + 1, prev, inp, occ =>
    match searchAux r prev inp 0 with
    | none => (inp, occ)
    | some (st, len, caps) =>
      if len == 0 then (inp, occ)
      else
        let matched := (inp.drop st).take len
        let rest := inp.drop (st + len)
        let out := replaceAllAux r f fuel matched.getLast? rest (occ + 1)
        (inp.take st ++ f occ caps matched ++ out.1, out.2)

/-- Global replace starting the occurrence counter at `occ0`, returning the
final counter (the validator threads it across several passes). -/
def replaceAllFrom (r : RE) (f : Nat → Caps → Str → Str) (s : Str) (occ0 : Nat) : Str × Nat :=
  replaceAllAux r f (s.length + 1) none s occ0

/-- Global replace (counter ignored). -/
def replaceAll (r : RE) (f : Nat → Caps → Str → Str) (s : Str) : Str :=
  (replaceAllFrom r f s 0).1

/-- Sequence a list of regular expressions. -/
def seqs (rs : List RE) : RE := rs.foldr RE.seq .eps

/-- Ordered alternation of a non-empty list. -/
def alts (rs : List RE) : RE :=
  match rs with
  | [] => .eps
  | [r] => r
  | r :: rest => .alt r (alts rest)

/-- Case-insensitive literal. -/
def litCI (s : String) : RE := .lit s.toList true

/-- Case-sensitive literal. -/
def litCS (s : String) : RE := .lit s.toList false

/-- `\s+`. -/
def wsp : RE := .repc jsSpace 1 none false

/-- `\s*`. -/
def wsopt : RE := .repc jsSpace 0 none false

/-- `\d+` (greedy). -/
def digits1 : RE := .repc jsDigit 1 none false

/-! ## Data model (`sql-validator.service.ts`, `planner.service.ts`) -/

/-- `ExtractedIntent`: attribute (e.g. gender, profession) and value (e.g. male,
doctor).  The source field `attribute` is called `attr` here because
`attribute` is a Lean keyword. -/
structure ExtractedIntent where
  attr : Str
  value : Str
deriving DecidableEq, Repr

/-- `ValidationResult` of the validator: `error` and `fixed` are optional fields
in the source object. -/
structure ValidationResult where
  valid : Bool
  sql : Str
  error : Option Str
  fixed : Option Bool
deriving DecidableEq, Repr

/-- `value.replace(/'/g, "''")`. -/
def escQuotes : Str → Str
  | [] => []
  | c :: cs => if c == '\'' then '\'' :: '\'' :: escQuotes cs else c :: escQuotes cs

/-- The `byAttr` record of the validator: `forEach` overwrites, so the last
intent entry for the (lowercased) attribute wins. -/
def byAttrLookup (intent : List ExtractedIntent) (attr : String) : Option Str :=
  (intent.reverse.find? (fun i => lowerStr i.attr == attr.toList)).map
    (fun i => escQuotes i.value)

/-- `values[idx % values.length]` (cycling placeholder substitution). -/
def cycleGet (values : List Str) (i : Nat) : Str := values.getD (i % values.length) []

/-- `new Set(extractedIntent.map(i => i.attr.toLowerCase())).has(a)`. -/
def hasAttrCI (intent : List ExtractedIntent) (attr : String) : Bool :=
  intent.any (fun i => lowerStr i.attr == attr.toList)

/-! ## Validator patterns (`validateAndFixSql`) -/

/-- `/\bFROM\s+career_details\s+c\b/i`. -/
def reFromCareerC : RE := seqs [.bnd, litCI "FROM", wsp, litCI "career_details", wsp, litCI "c", .bnd]

/-- `/\bFROM\s+profiles\s+p\b/i`. -/
def reFromProfilesP : RE := seqs [.bnd, litCI "FROM", wsp, litCI "profiles", wsp, litCI "p", .bnd]

/-- `/\bFROM\s+profile_locations\s+pl\b/i`. -/
def reFromProfLocPl : RE := seqs [.bnd, litCI "FROM", wsp, litCI "profile_locations", wsp, litCI "pl", .bnd]

/-- `/\bFROM\s+profiles\b/i`. -/
def reFromProfiles : RE := seqs [.bnd, litCI "FROM", wsp, litCI "profiles", .bnd]

/-- `/\bFROM\s+profiles\s+\w+\s*\n/i`. -/
def reFromProfilesAliasNl : RE :=
  seqs [.bnd, litCI "FROM", wsp, litCI "profiles", wsp, .repc jsWord 1 none false, wsopt,
    .cls (fun c => c == '\n')]

/-- `/\bFROM\s+profiles\s*(\n|LEFT|JOIN|$)/i`. -/
def reFromProfilesLoose : RE :=
  seqs [.bnd, litCI "FROM", wsp, litCI "profiles", wsopt,
    .grp 1 (alts [.cls (fun c => c == '\n'), litCI "LEFT", litCI "JOIN", .eos])]

/-- `/FROM\s+profiles\s*/i` (inner replace of the loose-alias fix callback). -/
def reInnerFromProfiles : RE := seqs [litCI "FROM", wsp, litCI "profiles", wsopt]

/-- `[^%']+`. -/
def notPctQuote : RE := .repc (fun c => !(c == '%' || c == '\'')) 1 none false

/-- `/(pl\.city|pl\.state)\s+LIKE\s+LOWER\s*\(\s*'%[^%']+%'\s*\)/gi`. -/
def reCityAlign : RE :=
  seqs [.grp 1 (.alt (litCI "pl.city") (litCI "pl.state")), wsp, litCI "LIKE", wsp,
    litCI "LOWER", wsopt, litCS "(", wsopt, litCS "'%", notPctQuote, litCS "%'", wsopt, litCS ")"]

/-- `/c\.profession\s+LIKE\s+LOWER\s*\(\s*'%[^%']+%'\s*\)/gi`. -/
def reProfAlign1 : RE :=
  seqs [litCI "c.profession", wsp, litCI "LIKE", wsp, litCI "LOWER", wsopt, litCS "(", wsopt,
    litCS "'%", notPctQuote, litCS "%'", wsopt, litCS ")"]

/-- `/LOWER\s*\(\s*c\.profession\s*\)\s+LIKE\s+LOWER\s*\(\s*'%[^%']+%'\s*\)/gi`. -/
def reProfAlign2 : RE :=
  seqs [litCI "LOWER", wsopt, litCS "(", wsopt, litCI "c.profession", wsopt, litCS ")", wsp,
    litCI "LIKE", wsp, litCI "LOWER", wsopt, litCS "(", wsopt, litCS "'%", notPctQuote,
    litCS "%'", wsopt, litCS ")"]

/-- `/'%value%'/gi`. -/
def reQuotedValueCI : RE := litCI "'%value%'"

/-- `/%value%/gi`. -/
def reBareValueCI : RE := litCI "%value%"

/-- `/'value'/g` (case-sensitive). -/
def reQuoteValueCS : RE := litCS "'value'"

/-- `/\bLIMIT\s+\d+\s*;?\s*$/i`. -/
def reLimitTail : RE := seqs [.bnd, litCI "LIMIT", wsp, digits1, wsopt, .opt (litCS ";"), wsopt, .eos]

/-- `/\)\s*\)\s*$/`. -/
def reParen2End : RE := seqs [litCS ")", wsopt, litCS ")", wsopt, .eos]

/-- `/\b(AND|OR)\s+[^)]+\)\s*\)\s*$/`. -/
def reAndOrParenEnd : RE :=
  seqs [.bnd, .grp 1 (.alt (litCS "AND") (litCS "OR")), wsp,
    .repc (fun c => c != ')') 1 none false, litCS ")", wsopt, litCS ")", wsopt, .eos]

/-- `/\;\s*(LIMIT\s+\d+)/i`. -/
def reSemiLimit : RE := seqs [litCS ";", wsopt, .grp 1 (seqs [litCI "LIMIT", wsp, digits1])]

/-- `/%value%|'value'/` (case-sensitive residue check). -/
def reResidue : RE := .alt (litCS "%value%") (litCS "'value'")

/-- `/\bWHERE\b/i`. -/
def reWhere : RE := seqs [.bnd, litCI "WHERE", .bnd]

/-- `/\bp\.first_name\b/i`. -/
def rePFirstName : RE := seqs [.bnd, litCI "p.first_name", .bnd]

/-- `/\bp\.last_name\b/i`. -/
def rePLastName : RE := seqs [.bnd, litCI "p.last_name", .bnd]

/-- `/\s+LIMIT\s+(\d+)\s*$/i`. -/
def reLimitNumTail : RE := seqs [wsp, litCI "LIMIT", wsp, .grp 1 digits1, wsopt, .eos]

/-- `/\bdate_of_birth\b/i`. -/
def reDob : RE := seqs [.bnd, litCI "date_of_birth", .bnd]

/-- `/\bAGE\s*\(/i`. -/
def reAgeFn : RE := seqs [.bnd, litCI "AGE", wsopt, litCS "("]

/-- `/\bEXTRACT\s*\(\s*YEAR/i`. -/
def reExtractYear : RE := seqs [.bnd, litCI "EXTRACT", wsopt, litCS "(", wsopt, litCI "YEAR"]

/-- `/(\d+)\s*[-–]\s*(\d+)/` (hyphen or en dash). -/
def reAgeRange : RE :=
  seqs [.grp 1 digits1, wsopt, .cls (fun c => c == '-' || c == '–'), wsopt, .grp 2 digits1]

/-- `/\buh\./i`. -/
def reUhDot : RE := seqs [.bnd, litCI "uh."]

/-- `/\bJOIN\s+user_horoscopes\s+uh\b/i`. -/
def reJoinUh : RE := seqs [.bnd, litCI "JOIN", wsp, litCI "user_horoscopes", wsp, litCI "uh", .bnd]

/-- `/\bf\./i`. -/
def reFDot : RE := seqs [.bnd, litCI "f."]

/-- `/\bJOIN\s+family_origin\s+f\b/i`. -/
def reJoinF : RE := seqs [.bnd, litCI "JOIN", wsp, litCI "family_origin", wsp, litCI "f", .bnd]

/-! ## Validator (`validateAndFixSql`) -/

/-- Fix message pushed by the base-table rewrites. -/
def fixMsgBase : Str := "base table set to profiles p".toList

/-- Fix message of the city alignment. -/
def fixMsgCity : Str := "aligned city with intent".toList

/-- Fix message of the profession alignment. -/
def fixMsgProf : Str := "aligned profession with intent".toList

/-- Fix message of the placeholder substitution. -/
def fixMsgSubst : Str := "substituted intent values for placeholders".toList

/-- Fix message of the parenthesis strip. -/
def fixMsgParen : Str := "removed extra parenthesis before LIMIT".toList

/-- Fix message of the semicolon removal. -/
def fixMsgSemi : Str := "removed semicolon before LIMIT".toList

/-- Fix message of the name-filter injection. -/
def fixMsgName : Str := "injected name filter from intent".toList

/-- Fix message of the age-filter injection. -/
def fixMsgAge : Str := "injected age filter from intent".toList

/-- Error of validation rule 5 (base entity missing). -/
def errMsgFrom : Str := "Query must start from FROM profiles p.".toList

/-- Error of validation rule 6 (placeholder residue). -/
def errMsgResidue : Str :=
  "SQL still contains literal '%value%' or 'value'; replace with actual intent values.".toList

/-- Error of validation rule 7 (name filter missing and not injectable). -/
def errMsgName : Str :=
  ("Intent has first_name or last_name but SQL WHERE does not filter by p.first_name or " ++
   "p.last_name. Add WHERE (LOWER(p.first_name) = LOWER('<value>') OR LOWER(p.last_name) = " ++
   "LOWER('<value>')) using the exact value from the intent list.").toList

/-- Error of validation rule 7 (age filter missing and not injectable). -/
def errMsgAge : Str :=
  ("Intent has age but SQL WHERE does not filter by date_of_birth/age. Use (EXTRACT(YEAR FROM " ++
   "AGE(CURRENT_DATE, p.date_of_birth)) BETWEEN min AND max) with the numbers from the intent.").toList

/-- Error of validation rule 8 (`uh.` without its join). -/
def errMsgUh : Str :=
  ("SQL uses uh. (e.g. uh.place_of_birth) but has no JOIN user_horoscopes uh. Add LEFT JOIN " ++
   "user_horoscopes uh ON p.profile_id = uh.profile_id.").toList

/-- Error of validation rule 8 (`f.` without its join). -/
def errMsgF : Str :=
  ("SQL uses f. (e.g. f.native_place) but has no JOIN family_origin f. Add LEFT JOIN " ++
   "family_origin f ON p.profile_id = f.profile_id.").toList

/-- Replacement text of rule 1 for a `FROM career_details c` base. -/
def careerBaseRepl : Str :=
  "FROM profiles p\nLEFT JOIN career_details c ON p.profile_id = c.profile_id".toList

/-- Replacement text of rule 1 for a `FROM profile_locations pl` base. -/
def plBaseRepl : Str :=
  "FROM profiles p\nLEFT JOIN profile_locations pl ON p.profile_id = pl.profile_id".toList

/-- Guard of rule 1a. -/
def guard1a (s : Str) : Bool := reTest reFromCareerC s && !reTest reFromProfilesP s

/-- Rule 1a: rebase a `FROM career_details c` query onto `profiles p`. -/
def step1a (s : Str) : Str × List Str :=
  if guard1a s then (replaceFirst reFromCareerC (fun _ _ => careerBaseRepl) s, [fixMsgBase])
  else (s, [])

/-- Guard of rule 1b. -/
def guard1b (s : Str) : Bool := reTest reFromProfLocPl s && !reTest reFromProfilesP s

/-- Rule 1b: rebase a `FROM profile_locations pl` query onto `profiles p`. -/
def step1b (s : Str) : Str × List Str :=
  if guard1b s then (replaceFirst reFromProfLocPl (fun _ _ => plBaseRepl) s, [fixMsgBase])
  else (s, [])

/-- Guard of rule 1c. -/
def guard1c (s : Str) : Bool :=
  reTest reFromProfiles s && !reTest reFromProfilesAliasNl s && !reTest reFromProfilesP s

/-- Rule 1c: add the missing `p` alias to a bare `FROM profiles` (pushes no fix
message in the source).  The callback's re-test of the outer string is kept
although the guard has already decided it. -/
def step1c (s : Str) : Str :=
  if guard1c s then
    replaceFirst reFromProfilesLoose
      (fun _ m =>
        if reTest reFromProfilesP s then m
        else replaceFirst reInnerFromProfiles (fun _ _ => "FROM profiles p ".toList) m) s
  else s

/-- Rule 2, city alignment rewrite (global). -/
def cityAlignRewrite (s city : Str) : Str :=
  replaceAll reCityAlign
    (fun _ caps _ => (capGet caps 1).getD [] ++ " LIKE LOWER('%".toList ++ city ++ "%')".toList) s

/-- Rule 2: align `pl.city`/`pl.state` literals with the city intent value. -/
def stepCity (s : Str) (intent : List ExtractedIntent) : Str × List Str :=
  match byAttrLookup intent "city" with
  | some city =>
    if city.isEmpty then (s, [])
    else
      let s' := cityAlignRewrite s city
      if s' == s then (s', []) else (s', [fixMsgCity])
  | none => (s, [])

/-- Rule 2, profession alignment rewrite (two global passes). -/
def profAlignRewrite (s pro : Str) : Str :=
  let s1 := replaceAll reProfAlign1
    (fun _ _ _ => "c.profession LIKE LOWER('%".toList ++ pro ++ "%')".toList) s
  replaceAll reProfAlign2
    (fun _ _ _ => "LOWER(c.profession) LIKE LOWER('%".toList ++ pro ++ "%')".toList) s1

/-- Rule 2: align `c.profession` literals with the profession intent value. -/
def stepProfession (s : Str) (intent : List ExtractedIntent) : Str × List Str :=
  match byAttrLookup intent "profession" with
  | some pro =>
    if pro.isEmpty then (s, [])
    else
      let s' := profAlignRewrite s pro
      if s' == s then (s', []) else (s', [fixMsgProf])
  | none => (s, [])

/-- Guard of the placeholder substitution. -/
def substGuard (s : Str) (values : List Str) : Bool :=
  !values.isEmpty && (containsSub "%value%".toList s || containsSub "'value'".toList s)

/-- Placeholder substitution body: three global passes; the counter restarts
before the bare `%value%` pass and carries over into the `'value'` pass. -/
def substPlaceholders (values : List Str) (s : Str) : Str :=
  let p1 := replaceAllFrom reQuotedValueCI
    (fun i _ _ => "'%".toList ++ cycleGet values i ++ "%'".toList) s 0
  let p2 := replaceAllFrom reBareValueCI
    (fun i _ _ => "%".toList ++ cycleGet values i ++ "%".toList) p1.1 0
  let p3 := replaceAllFrom reQuoteValueCS
    (fun i _ _ => "'".toList ++ cycleGet values i ++ "'".toList) p2.1 p2.2
  p3.1

/-- Rule 2: substitute intent values for literal placeholders. -/
def stepPlaceholders (s : Str) (values : List Str) : Str × List Str :=
  if substGuard s values then (substPlaceholders values s, [fixMsgSubst]) else (s, [])

/-- Rule 3: strip one extra closing parenthesis immediately before `LIMIT`. -/
def stepParen (s : Str) : Str × List Str :=
  match reSearch reLimitTail s with
  | none => (s, [])
  | some (_, len, _) =>
    let limitTxt := s.drop (s.length - len)
    let beforeLimit := s.take (s.length - len)
    let trimmed := trimEndStr beforeLimit
    if reTest reParen2End trimmed then
      (replaceFirst reParen2End (fun _ _ => ") ".toList) trimmed ++ limitTxt, [fixMsgParen])
    else if reTest reAndOrParenEnd trimmed then
      (replaceFirst reParen2End (fun _ _ => ") ".toList) trimmed ++ limitTxt, [fixMsgParen])
    else (s, [])

/-- Guard of rule 4. -/
def guardSemi (s : Str) : Bool := reTest reSemiLimit s

/-- Rule 4: remove a semicolon before `LIMIT`. -/
def stepSemicolon (s : Str) : Str × List Str :=
  if guardSemi s then
    (replaceFirst reSemiLimit (fun caps _ => ' ' :: (capGet caps 1).getD []) s, [fixMsgSemi])
  else (s, [])

/-- Rules 1–4 in source order, accumulating the pushed fix messages. -/
def fixPhase (s : Str) (intent : List ExtractedIntent) : Str × List Str :=
  let values := intent.map (fun i => escQuotes i.value)
  let r1 := step1a s
  let r2 := step1b r1.1
  let s3 := step1c r2.1
  let r4 := stepCity s3 intent
  let r5 := stepProfession r4.1 intent
  let r6 := stepPlaceholders r5.1 values
  let r7 := stepParen r6.1
  let r8 := stepSemicolon r7.1
  (r8.1, r1.2 ++ r2.2 ++ r4.2 ++ r5.2 ++ r6.2 ++ r7.2 ++ r8.2)

/-- Failure result: the source always sets `fixed` on failures. -/
def mkInvalid (s e : Str) (fixes : List Str) : ValidationResult :=
  ⟨false, s, some e, some (!fixes.isEmpty)⟩

/-- Success result: `fixed` present (and true) only when fixes were applied. -/
def mkValid (s : Str) (fixes : List Str) : ValidationResult :=
  ⟨true, s, none, if fixes.isEmpty then none else some true⟩

/-- Guard of rule 6 (placeholder residue, case-sensitive, intent non-empty). -/
def residueGuard (s : Str) (intent : List ExtractedIntent) : Bool :=
  reTest reResidue s && !intent.isEmpty

/-- First intent entry whose attribute is `first_name` or `last_name`, escaped. -/
def nameValueOf (intent : List ExtractedIntent) : Option Str :=
  (intent.find? (fun i =>
    lowerStr i.attr == "first_name".toList || lowerStr i.attr == "last_name".toList)).map
    (fun i => escQuotes i.value)

/-- The injected name condition. -/
def nameCond (nv : Str) : Str :=
  "(LOWER(p.first_name) = LOWER('".toList ++ nv ++ "') OR LOWER(p.last_name) = LOWER('".toList ++
    nv ++ "'))".toList

/-- Rule 7 name injection: wrap the old WHERE and prepend the name condition,
or append a WHERE before the final LIMIT. -/
def injectNameFilter (s nv : Str) : Str :=
  if reTest reWhere s then
    replaceFirst reLimitNumTail (fun _ m => ") ".toList ++ m)
      (replaceFirst reWhere (fun _ _ => "WHERE ".toList ++ nameCond nv ++ " AND (".toList) s)
  else
    replaceFirst reLimitNumTail (fun _ m => " WHERE ".toList ++ nameCond nv ++ " ".toList ++ m) s

/-- The injected age condition. -/
def ageCond (mn mx : Str) : Str :=
  "(EXTRACT(YEAR FROM AGE(CURRENT_DATE, p.date_of_birth)) BETWEEN ".toList ++ mn ++
    " AND ".toList ++ mx ++ ")".toList

/-- Rule 7 age injection. -/
def injectAgeFilter (s mn mx : Str) : Str :=
  if reTest reWhere s then
    replaceFirst reLimitNumTail (fun _ m => ") ".toList ++ m)
      (replaceFirst reWhere (fun _ _ => "WHERE ".toList ++ ageCond mn mx ++ " AND (".toList) s)
  else
    replaceFirst reLimitNumTail (fun _ m => " WHERE ".toList ++ ageCond mn mx ++ " ".toList ++ m) s

/-- `hasNameInWhere` of rule 7. -/
def hasNameInWhere (s : Str) : Bool :=
  reTest reWhere s && (reTest rePFirstName s || reTest rePLastName s)

/-- `hasAgeInWhere` of rule 7. -/
def hasAgeInWhere (s : Str) : Bool :=
  reTest reWhere s && (reTest reDob s || reTest reAgeFn s || reTest reExtractYear s)

/-- Rule 8: aliases `uh.`/`f.` require their joins (hard failures). -/
def checkJoinPhase (s : Str) (fixes : List Str) : ValidationResult :=
  if reTest reUhDot s && !reTest reJoinUh s then mkInvalid s errMsgUh fixes
  else if reTest reFDot s && !reTest reJoinF s then mkInvalid s errMsgF fixes
  else mkValid s fixes

/-- The age range captured from the age intent value (rule 7). -/
def ageRangeOf (intent : List ExtractedIntent) : Option Caps :=
  ((intent.find? (fun i => lowerStr i.attr == "age".toList)).bind
    (fun i => reSearch reAgeRange i.value)).map (fun t => t.2.2)

/-- Rule 7, age part. -/
def checkAgePhase (s : Str) (intent : List ExtractedIntent) (fixes : List Str) : ValidationResult :=
  if hasAttrCI intent "age" then
    if !hasAgeInWhere s then
      match ageRangeOf intent with
      | some caps =>
        checkJoinPhase (injectAgeFilter s ((capGet caps 1).getD []) ((capGet caps 2).getD []))
          (fixes ++ [fixMsgAge])
      | none => mkInvalid s errMsgAge fixes
    else checkJoinPhase s fixes
  else checkJoinPhase s fixes

/-- Rule 7, name part. -/
def checkNamePhase (s : Str) (intent : List ExtractedIntent) (fixes : List Str) : ValidationResult :=
  if hasAttrCI intent "first_name" || hasAttrCI intent "last_name" then
    if !hasNameInWhere s then
      match nameValueOf intent with
      | some nv =>
        if !nv.isEmpty then checkAgePhase (injectNameFilter s nv) intent (fixes ++ [fixMsgName])
        else mkInvalid s errMsgName fixes
      | none => mkInvalid s errMsgName fixes
    else checkAgePhase s intent fixes
  else checkAgePhase s intent fixes

/-- `validateAndFixSql` of `sql-validator.service.ts`: trim, apply the fix rules
1–4, then the checks 5–8 (with rule-7 self-healing injections). -/
def validateAndFixSql (sql : Str) (intent : List ExtractedIntent) : ValidationResult :=
  let fp := fixPhase (trimStr sql) intent
  if !reTest reFromProfiles fp.1 then mkInvalid fp.1 errMsgFrom fp.2
  else if residueGuard fp.1 intent then mkInvalid fp.1 errMsgResidue fp.2
  else checkNamePhase fp.1 intent fp.2

/-! ## Deterministic query builder (`planner.service.ts`) -/

/-- Decimal representation of a number (JavaScript template interpolation of a
non-negative integer). -/
def natReprAux (fuel n : Nat) (acc : Str) : Str :=
  match fuel with
  | 0 => acc
  | f + 1 =>
    let acc := Char.ofNat (48 + n % 10) :: acc
    if n < 10 then acc else natReprAux f (n / 10) acc

/-- Decimal representation entry point. -/
def natRepr (n : Nat) : Str := natReprAux (n + 1) n []

/-- `parseInt` on a digit string. -/
def parseNatDigits (s : Str) : Nat :=
  s.foldl (fun acc c => acc * 10 + (c.toNat - 48)) 0

/-- `INTENT_TO_SQL`: attribute to column/SQL pattern (source order and text). -/
def intentToSql : List (Str × Str) :=
  [("first_name".toList, "LOWER(p.first_name) = LOWER('<value>') OR LOWER(p.last_name) = LOWER('<value>')".toList),
   ("last_name".toList, "LOWER(p.last_name) LIKE LOWER('%<value>%')".toList),
   ("gender".toList, "LOWER(p.gender) = LOWER('<value>') or p.gender ILIKE '%<value>%'".toList),
   ("marital_status".toList, "LOWER(p.marital_status) = LOWER('<value>') or p.marital_status ILIKE '%<value>%'".toList),
   ("profession".toList, "LOWER(c.profession) LIKE LOWER('%<value>%') — career_details c only, never master_castes".toList),
   ("city".toList, "LOWER(pl.city) LIKE LOWER('%<value>%') or pl.state ILIKE '%<value>%' — profile_locations pl".toList),
   ("state".toList, "LOWER(pl.state) LIKE LOWER('%<value>%')".toList),
   ("country".toList, "LOWER(pl.country) LIKE LOWER('%<value>%') — profile_locations pl".toList),
   ("work_country".toList, "LOWER(c.work_location) LIKE LOWER('%<value>%') or LOWER(pl.country) LIKE LOWER('%<value>%')".toList),
   ("mother_tongue".toList, "LOWER(p.mother_tongue) LIKE LOWER('%<value>%') — profiles only".toList),
   ("religion".toList, "LOWER(sb.religion) LIKE LOWER('%<value>%') — social_background sb".toList),
   ("caste".toList, "LOWER(sb.caste) LIKE LOWER('%<value>%') or sb.sub_caste ILIKE '%<value>%'".toList),
   ("diet".toList, "LOWER(lh.diet) LIKE LOWER('%<value>%') — lifestyle_habits lh, join ON p.profile_id = lh.profile_id".toList),
   ("smoking".toList, "LOWER(lh.smoking) = LOWER('<value>')".toList),
   ("drinking".toList, "LOWER(lh.drinking) = LOWER('<value>')".toList),
   ("degree_type".toList, "LOWER(ed.degree_type) LIKE LOWER('%<value>%') or ed.specialization ILIKE '%<value>%'".toList),
   ("income".toList, "c.annual_income >= <number> (e.g. 15 LPA = 1500000)".toList),
   ("age".toList, "EXTRACT(YEAR FROM AGE(CURRENT_DATE, p.date_of_birth)) BETWEEN <min> AND <max>".toList),
   ("height".toList, "p.height_cm >= <value> or BETWEEN".toList),
   ("weight".toList, "p.weight_kg <= <value> or BETWEEN".toList),
   ("subscription_plan".toList, "LOWER(us.plan_name) LIKE LOWER('%<value>%') — join users u, user_subscriptions us".toList),
   ("native_place".toList, "LOWER(f.native_place) LIKE LOWER('%<value>%') OR LOWER(uh.place_of_birth) LIKE LOWER('%<value>%') — family_origin f or user_horoscopes uh".toList)]

/-- `normalizeIntentAttribute`: lowercase/trim, collapse the dotted location and
income forms, strip a `location.` prefix; an empty result falls back to the
original attribute. -/
def normalizeIntentAttribute (attr : Str) : Str :=
  let lower := trimStr (lowerStr attr)
  if lower == "location.city".toList || lower == "location".toList || lower == "city".toList then
    "city".toList
  else if lower == "income.value".toList || lower == "income".toList then "income".toList
  else
    let stripped := if "location.".toList.isPrefixOf lower then lower.drop 9 else lower
    let r := trimStr stripped
    if r.isEmpty then attr else r

/-- The split pattern of `getSqlPattern`: `/\s+—\s+|\s+\(e\.g\./`. -/
def reSqlPatternSplit : RE :=
  .alt (seqs [wsp, litCS "—", wsp]) (seqs [wsp, litCS "(e.g."])

/-- `getSqlPattern`: the SQL fragment before an explanatory dash or example. -/
def getSqlPattern (attr : Str) : Str :=
  let raw := ((intentToSql.find? (fun e => e.1 == attr)).map (fun e => e.2)).getD []
  let pre :=
    match reSearch reSqlPatternSplit raw with
    | none => raw
    | some (st, _, _) => raw.take st
  trimStr pre

/-- `INTENT_TABLES`: table aliases required by an attribute. -/
def intentTables (attr : Str) : List Str :=
  if attr == "first_name".toList || attr == "last_name".toList || attr == "gender".toList ||
     attr == "marital_status".toList || attr == "mother_tongue".toList || attr == "age".toList ||
     attr == "height".toList || attr == "weight".toList then []
  else if attr == "profession".toList || attr == "income".toList then ["c".toList]
  else if attr == "degree_type".toList then ["ed".toList]
  else if attr == "work_country".toList then ["c".toList, "pl".toList]
  else if attr == "city".toList || attr == "state".toList || attr == "country".toList then
    ["pl".toList]
  else if attr == "religion".toList || attr == "caste".toList then ["sb".toList]
  else if attr == "diet".toList || attr == "smoking".toList || attr == "drinking".toList then
    ["lh".toList]
  else if attr == "native_place".toList then ["f".toList, "uh".toList]
  else if attr == "subscription_plan".toList then ["u".toList, "us".toList]
  else []

/-- `selectColumnsForIntent`: minimal SELECT column list. -/
def selectColumnsForIntent (intentAttrs joins : List Str) : List Str :=
  let has := fun (l : List Str) (a : String) => l.contains a.toList
  let cols := ["p.profile_id".toList, "p.first_name".toList, "p.last_name".toList]
  let cols := cols ++
    (if has joins "pl" || has intentAttrs "city" || has intentAttrs "state" ||
        has intentAttrs "country" then ["pl.city".toList, "pl.state".toList] else [])
  let cols := cols ++
    (if has joins "c" then
      (if has intentAttrs "profession" then ["c.profession".toList] else []) ++
      (if has intentAttrs "income" then ["c.annual_income".toList] else [])
     else [])
  let cols := cols ++ (if has joins "sb" then ["sb.religion".toList, "sb.caste".toList] else [])
  let cols := cols ++
    (if has joins "lh" then ["lh.diet".toList, "lh.smoking".toList, "lh.drinking".toList] else [])
  let cols := cols ++ (if has intentAttrs "mother_tongue" then ["p.mother_tongue".toList] else [])
  let cols := cols ++ (if has intentAttrs "gender" then ["p.gender".toList] else [])
  let cols := cols ++ (if has intentAttrs "marital_status" then ["p.marital_status".toList] else [])
  let cols := cols ++ (if has joins "f" then ["f.native_place".toList] else [])
  let cols := cols ++ (if has joins "uh" then ["uh.place_of_birth".toList] else [])
  let cols := cols ++ (if has joins "ed" then ["ed.degree_type".toList] else [])
  cols

/-- `/(\d+)\s*LPA/i` of the income branch. -/
def reIncomeLpa : RE := seqs [.grp 1 digits1, wsopt, litCI "LPA"]

/-- `/%<value>%/gi`. -/
def reValuePctPh : RE := litCI "%<value>%"

/-- `/<value>/gi`. -/
def reValuePh : RE := litCI "<value>"

/-- `/\s+or\s+/g` (case-sensitive). -/
def reOrSep : RE := seqs [wsp, litCS "or", wsp]

/-- Parenthesize a predicate when it contains an `OR`, so AND/OR precedence is
correct (the push step of the condition loop). -/
def wrapOr (e : Str) : Str :=
  if containsSub " OR ".toList e then '(' :: e ++ [')'] else e

/-- One iteration of the condition loop of `buildSqlFromIntent`: `none` when the
attribute has no SQL pattern (the source `continue`s, silently skipping it). -/
def condOfItem (i : ExtractedIntent) : Option Str :=
  let attr := i.attr
  let val := escQuotes i.value
  let expr0 := getSqlPattern attr
  if expr0.isEmpty then none
  else
    let expr :=
      if attr == "income".toList then
        let num :=
          match reSearch reIncomeLpa i.value with
          | some (_, _, caps) => parseNatDigits ((capGet caps 1).getD "0".toList) * 100000
          | none => 1000000
        "c.annual_income >= ".toList ++ natRepr num
      else if attr == "age".toList then
        let range := reSearch reAgeRange i.value
        let mn := (range.bind (fun t => capGet t.2.2 1)).getD "25".toList
        let mx := (range.bind (fun t => capGet t.2.2 2)).getD "30".toList
        "(EXTRACT(YEAR FROM AGE(CURRENT_DATE, p.date_of_birth)) BETWEEN ".toList ++ mn ++
          " AND ".toList ++ mx ++ ")".toList
      else
        replaceAll reOrSep (fun _ _ _ => " OR ".toList)
          (replaceAll reValuePh (fun _ _ _ => val)
            (replaceAll reValuePctPh (fun _ _ _ => "%".toList ++ val ++ "%".toList) expr0))
    some (wrapOr expr)

/-- Attribute-normalized copy of an intent list. -/
def normalizeIntentList (l : List ExtractedIntent) : List ExtractedIntent :=
  l.map (fun i => ⟨normalizeIntentAttribute i.attr, i.value⟩)

/-- The conditions array of `buildSqlFromIntent` (over normalized items). -/
def buildConditions (normalized : List ExtractedIntent) : List Str :=
  normalized.filterMap condOfItem

/-- The join lines of `buildSqlFromIntent`. -/
def joinLinesFor (joins : List Str) : List Str :=
  let has := fun (a : String) => joins.contains a.toList
  (if has "pl" then ["LEFT JOIN profile_locations pl ON p.profile_id = pl.profile_id".toList] else []) ++
  (if has "c" then ["LEFT JOIN career_details c ON p.profile_id = c.profile_id".toList] else []) ++
  (if has "sb" then ["LEFT JOIN social_background sb ON p.profile_id = sb.profile_id".toList] else []) ++
  (if has "lh" then ["LEFT JOIN lifestyle_habits lh ON p.profile_id = lh.profile_id".toList] else []) ++
  (if has "ed" then ["LEFT JOIN education_details ed ON p.profile_id = ed.profile_id".toList] else []) ++
  (if has "f" then ["LEFT JOIN family_origin f ON p.profile_id = f.profile_id".toList] else []) ++
  (if has "uh" then ["LEFT JOIN user_horoscopes uh ON p.profile_id = uh.profile_id".toList] else [])

/-- `buildSqlFromIntent` of `planner.service.ts`. -/
def buildSqlFromIntent (extractedIntent : List ExtractedIntent) : Str :=
  let normalized := normalizeIntentList extractedIntent
  if normalized.isEmpty then []
  else
    let intentAttrs := normalized.map (fun i => i.attr)
    let joins := (normalized.map (fun i => intentTables i.attr)).flatten
    let selectCols := selectColumnsForIntent intentAttrs joins
    let joinLines := joinLinesFor joins
    let conditions := buildConditions normalized
    let whereClause :=
      if conditions.isEmpty then []
      else " WHERE ".toList ++ List.intercalate " AND ".toList conditions
    "SELECT ".toList ++ List.intercalate ", ".toList selectCols ++
      "\nFROM profiles p\n".toList ++ List.intercalate "\n".toList joinLines ++
      whereClause ++ "\nLIMIT 50".toList

/-! ## Rule-based fallback intent extractor (`fallbackExtractIntent`) -/

/-- Letter-or-space class (`[a-z\s]` under `/i`, `[A-Za-z\s]`). -/
def letterOrSpace (c : Char) : Bool := asciiLetter c || jsSpace c

/-- Optional plural `s?` (case-insensitive). -/
def optS : RE := .opt (litCI "s")

/-- Profession keywords: `/\b(software\s+engineers?|chartered\s+accountants?|doctors?|engineers?|lawyers?|teachers?|accountants?)\b/i`. -/
def reFbProfession : RE :=
  seqs [.bnd, .grp 1 (alts [
    seqs [litCI "software", wsp, litCI "engineer", optS],
    seqs [litCI "chartered", wsp, litCI "accountant", optS],
    seqs [litCI "doctor", optS],
    seqs [litCI "engineer", optS],
    seqs [litCI "lawyer", optS],
    seqs [litCI "teacher", optS],
    seqs [litCI "accountant", optS]]), .bnd]

/-- `/\b(?:originally\s+from|hails?\s+from|native\s+of)\s+([a-z][a-z\s]{0,40}?)(?:\s*\.|$)/i`. -/
def reFbNative1 : RE :=
  seqs [.bnd,
    alts [seqs [litCI "originally", wsp, litCI "from"],
          seqs [litCI "hail", optS, wsp, litCI "from"],
          seqs [litCI "native", wsp, litCI "of"]],
    wsp, .grp 1 (seqs [.cls asciiLetter, .repc letterOrSpace 0 (some 40) true]),
    .alt (seqs [wsopt, litCS "."]) .eos]

/-- `/(?:originally\s+from|hails?\s+from|native\s+of)\s+([A-Za-z][A-Za-z\s]{0,40}?)(?:\s*\.|$)/i`. -/
def reFbNative2 : RE :=
  seqs [alts [seqs [litCI "originally", wsp, litCI "from"],
          seqs [litCI "hail", optS, wsp, litCI "from"],
          seqs [litCI "native", wsp, litCI "of"]],
    wsp, .grp 1 (seqs [.cls asciiLetter, .repc letterOrSpace 0 (some 40) true]),
    .alt (seqs [wsopt, litCS "."]) .eos]

/-- `/\b(?:in|from|at|lives?\s+in)\s+([A-Za-z][A-Za-z\s]{1,40}?)(?:\s+earning|\s+who|\s+speak|\.|$)/i`. -/
def reFbCity1 : RE :=
  seqs [.bnd,
    alts [litCI "in", litCI "from", litCI "at", seqs [litCI "live", optS, wsp, litCI "in"]],
    wsp, .grp 1 (seqs [.cls asciiLetter, .repc letterOrSpace 1 (some 40) true]),
    alts [seqs [wsp, litCI "earning"], seqs [wsp, litCI "who"], seqs [wsp, litCI "speak"],
          litCS ".", .eos]]

/-- `/\b(?:in|from)\s+([A-Za-z]+)\b/i`. -/
def reFbCity2 : RE :=
  seqs [.bnd, .alt (litCI "in") (litCI "from"), wsp, .grp 1 (.repc asciiLetter 1 none false), .bnd]

/-- `/(?:earning\s+)?(?:more than|above|over)\s*(\d+)\s*lpa/i`. -/
def reFbIncome1 : RE :=
  seqs [.opt (seqs [litCI "earning", wsp]),
    alts [litCI "more than", litCI "above", litCI "over"], wsopt, .grp 1 digits1, wsopt, litCI "lpa"]

/-- `/\b(\d+)\s*lpa/i`. -/
def reFbIncome2 : RE := seqs [.bnd, .grp 1 digits1, wsopt, litCI "lpa"]

/-- `/\b(hindu|islam|muslim|christianity|christian|sikh|jain|buddhist)\b/i`. -/
def reFbReligion : RE :=
  seqs [.bnd, .grp 1 (alts [litCI "hindu", litCI "islam", litCI "muslim", litCI "christianity",
    litCI "christian", litCI "sikh", litCI "jain", litCI "buddhist"]), .bnd]

/-- `/\b(brahmin|rajput|maratha|kayasta|bania|vaishya|kshatriya)\b/i`. -/
def reFbCaste : RE :=
  seqs [.bnd, .grp 1 (alts [litCI "brahmin", litCI "rajput", litCI "maratha", litCI "kayasta",
    litCI "bania", litCI "vaishya", litCI "kshatriya"]), .bnd]

/-- `/(?:speak|who speak|mother tongue)\s+([a-z]+)/i`. -/
def reFbLang1 : RE :=
  seqs [alts [litCI "speak", litCI "who speak", litCI "mother tongue"], wsp,
    .grp 1 (.repc asciiLetter 1 none false)]

/-- `/(?:speak|who speak)\s+([A-Za-z]+)/i`. -/
def reFbLang2 : RE :=
  seqs [.alt (litCI "speak") (litCI "who speak"), wsp, .grp 1 (.repc asciiLetter 1 none false)]

/-- `/([A-Za-z][a-z]+)'s\s+profile/i`. -/
def reFbName1 : RE :=
  seqs [.grp 1 (seqs [.cls asciiLetter, .repc asciiLetter 1 none false]), litCI "'s", wsp,
    litCI "profile"]

/-- `/(?:show\s+me|profile\s+of)\s+([A-Za-z][a-z]+)\.?\s*$/i`. -/
def reFbName2 : RE :=
  seqs [alts [seqs [litCI "show", wsp, litCI "me"], seqs [litCI "profile", wsp, litCI "of"]],
    wsp, .grp 1 (seqs [.cls asciiLetter, .repc asciiLetter 1 none false]), .opt (litCS "."),
    wsopt, .eos]

/-- `/(?:profile\s+of)\s+([A-Za-z][a-z]+)/i`. -/
def reFbName3 : RE :=
  seqs [litCI "profile", wsp, litCI "of", wsp,
    .grp 1 (seqs [.cls asciiLetter, .repc asciiLetter 1 none false])]

/-- `/(?:between|ages?)\s+(\d+)\s+(?:and|to|-)\s+(\d+)/i`. -/
def reFbAge1 : RE :=
  seqs [alts [litCI "between", seqs [litCI "age", optS]], wsp, .grp 1 digits1, wsp,
    alts [litCI "and", litCI "to", litCS "-"], wsp, .grp 2 digits1]

/-- `/(\d+)\s*-\s*(\d+)\s*(?:years?)?/` (case-sensitive, applied to the lowercased question). -/
def reFbAge2 : RE :=
  seqs [.grp 1 digits1, wsopt, litCS "-", wsopt, .grp 2 digits1, wsopt,
    .opt (seqs [litCS "year", .opt (litCS "s")])]

/-- `match?.[1]` of a search result, with JavaScript truthiness (an empty
capture is falsy). -/
def fbCap1 (m : Option (Nat × Nat × Caps)) : Option Str :=
  (m.bind (fun t => capGet t.2.2 1)).bind (fun v => if v.isEmpty then none else some v)

/-- `match?.[2]` with truthiness. -/
def fbCap2 (m : Option (Nat × Nat × Caps)) : Option Str :=
  (m.bind (fun t => capGet t.2.2 2)).bind (fun v => if v.isEmpty then none else some v)

/-- Push one intent entry when a rule produced a (truthy) captured value:
the shared shape of the fallback rules. -/
def fbPush (a : String) (v : Option Str) : List ExtractedIntent :=
  match v with
  | some w => [⟨a.toList, w⟩]
  | none => []

/-- `fallbackExtractIntent` of `planner.service.ts`: rule-based extraction with
the `in/at/from` city rule suppressed when the origin rule already produced a
`native_place` intent. -/
def fallbackExtractIntent (question : Str) : List ExtractedIntent :=
  let q := trimStr question
  let lower := lowerStr q
  let intents := fbPush "profession" ((fbCap1 (reSearch reFbProfession lower)).map trimStr)
  let intents := intents ++ fbPush "native_place"
    ((fbCap1 ((reSearch reFbNative1 lower).orElse (fun _ => reSearch reFbNative2 q))).map trimStr)
  let intents := intents ++
    (if intents.any (fun i => i.attr == "native_place".toList) then []
     else fbPush "city"
       ((fbCap1 ((reSearch reFbCity1 q).orElse (fun _ => reSearch reFbCity2 q))).map trimStr))
  let intents := intents ++ fbPush "income"
    ((fbCap1 ((reSearch reFbIncome1 lower).orElse (fun _ => reSearch reFbIncome2 lower))).map
      (fun v => v ++ " LPA".toList))
  let intents := intents ++ fbPush "religion" ((fbCap1 (reSearch reFbReligion lower)).map trimStr)
  let intents := intents ++ fbPush "caste" ((fbCap1 (reSearch reFbCaste lower)).map trimStr)
  let intents := intents ++ fbPush "mother_tongue"
    ((fbCap1 ((reSearch reFbLang1 lower).orElse (fun _ => reSearch reFbLang2 q))).map trimStr)
  let intents := intents ++ fbPush "first_name"
    ((fbCap1 ((reSearch reFbName1 q).orElse
      (fun _ => (reSearch reFbName2 q).orElse (fun _ => reSearch reFbName3 q)))).map trimStr)
  let intents := intents ++
    (let m := (reSearch reFbAge1 lower).orElse (fun _ => reSearch reFbAge2 lower)
     match fbCap1 m, fbCap2 m with
     | some v1, some v2 => [⟨"age".toList, v1 ++ "-".toList ++ v2⟩]
     | _, _ => [])
  intents

/-! ## Execution gateway (`executor.service.ts`) -/

/-- A result row (`Record<string, unknown>` modelled as a field mapping). -/
abbrev Row := List (Str × Str)

/-- Behaviour of the underlying database call `readonlyDb.raw(sql)`: it either
resolves (with or without a `rows` array) or rejects with an `Error` (carrying
a message) or with a non-`Error` value. -/
inductive DbOutcome where
  | result (rowsField : Option (List Row))
  | throwErr (msg : Str)
  | throwNonError
deriving DecidableEq, Repr

/-- Return type of `executeMatrimonialQuery`: rows or a single error field. -/
inductive ExecResult where
  | rows (r : List Row)
  | err (msg : Str)
deriving DecidableEq, Repr

/-- `executeMatrimonialQuery` of `executor.service.ts`. -/
def executeMatrimonialQuery (db : DbOutcome) : ExecResult :=
  match db with
  | .result (some r) => .rows r
  | .result none => .rows []
  | .throwErr m => .err m
  | .throwNonError => .err "Unknown error occurred".toList

/-! ## HTTP handlers (`app.ts`) -/

/-- External collaborators of the `/api/ask` pipeline, as oracles: the schema
context retrieval, the LLM intent extraction, the LLM SQL generation (only used
when the intent list is empty), the corrective re-synthesis per attempt, the
database behaviour per query, and the optional dynamic-UI call. -/
structure AskOracles where
  contextResult : Except Str Str
  intentResult : Except Str (List ExtractedIntent)
  genSqlLLM : Except Str Str
  correctedSql : Nat → Str → Str → Except Str Str
  dbRun : Str → DbOutcome
  thesysKey : Bool
  thesysResult : Except Str (Option Str)

/-- `generateMatrimonialSQL` of `planner.service.ts`: with a non-empty
(normalized) intent list the deterministic builder is used; otherwise the
generative path (an oracle here). -/
def generateMatrimonialSQLModel (o : AskOracles) (intents : List ExtractedIntent) :
    Except Str Str :=
  if (normalizeIntentList intents).isEmpty then o.genSqlLLM
  else .ok (buildSqlFromIntent intents)

/-- A JSON response of the handlers; absent fields are `none`. -/
structure AskResponse where
  status : Nat
  success : Option Bool
  generated_sql : Option Str
  error : Option Str
  detail : Option Str
  extracted_intent : Option (List ExtractedIntent)
  data : Option (List Row)
  row_count : Option Nat
  c1_response : Option Str
deriving DecidableEq, Repr

/-- The missing-WHERE error of the `/api/ask` handler (byte-exact, including
the mojibake arrows of the source file). -/
def missingWhereMsg : Str :=
  ("Missing WHERE clause. Add a WHERE clause with one condition per extracted intent " ++
   "(e.g. profession â†’ c.profession, city â†’ pl.city, income " ++
   "â†’ c.annual_income, religion â†’ sb.religion, caste " ++
   "â†’ sb.caste, mother_tongue â†’ p.mother_tongue). " ++
   "Use only JOINs needed for those filters.").toList

/-- `'error' in results && results.error` (an empty message is falsy). -/
def errTruthy : ExecResult → Option Str
  | .rows _ => none
  | .err m => if m.isEmpty then none else some m

/-- `MAX_CORRECTION_ATTEMPTS`. -/
def maxCorrectionAttempts : Nat := 3

/-- The correction loop of `/api/ask`: while the previous results are an error
and fewer than `MAX_CORRECTION_ATTEMPTS` attempts were made, ask for a
corrected query, re-validate and re-execute.  Returns the final query and
results (or the thrown message), the attempt count and the trace of queries
forwarded to the execution gateway. -/
def correctionLoop (o : AskOracles) (intents : List ExtractedIntent) :
    Nat → Str → ExecResult → Nat → List Str → Except Str (Str × ExecResult) × Nat × List Str
  | 0, sql, results, attempts, trace => (.ok (sql, results), attempts, trace)
  | fuel + 1, sql, results, attempts, trace =>
    match errTruthy results with
    | none => (.ok (sql, results), attempts, trace)
    | some e =>
      if attempts < maxCorrectionAttempts then
        match o.correctedSql attempts sql e with
        | .error ex => (.error ex, attempts, trace)
        | .ok newSql =>
          let v := validateAndFixSql newSql intents
          let vErrTruthy := match v.error with | some msg => !msg.isEmpty | none => false
          if !v.valid && vErrTruthy then
            correctionLoop o intents fuel v.sql (.err (v.error.getD [])) (attempts + 1) trace
          else
            correctionLoop o intents fuel v.sql (executeMatrimonialQuery (o.dbRun v.sql))
              (attempts + 1) (trace ++ [v.sql])
      else (.ok (sql, results), attempts, trace)

/-- `/429|quota|rate limit|Too Many Requests/i` on the caught message. -/
def isRateLimitMsg (m : Str) : Bool :=
  containsSub "429".toList m || containsSubCI "quota".toList m ||
    containsSubCI "rate limit".toList m || containsSubCI "Too Many Requests".toList m

/-- The 400 response of `/api/ask` for a missing question. -/
def resp400Ask : AskResponse :=
  ⟨400, none, none, some "Please provide a matrimonial search question.".toList, none, none,
    none, none, none⟩

/-- The 429 rate-limit response of the catch handler. -/
def resp429 (detail : Str) : AskResponse :=
  ⟨429, some false, none,
    some ("Gemini API rate limit or quota exceeded. Wait a minute and retry, or check your " ++
      "plan at https://ai.google.dev/gemini-api/docs/rate-limits").toList,
    some (detail.take 500), none, none, none, none⟩

/-- The 500 response of the catch handler. -/
def resp500 (detail : Str) : AskResponse :=
  ⟨500, some false, none, some "Failed to process your request. Our AI is learning!".toList,
    some detail, none, none, none, none⟩

/-- Result of one `/api/ask` request: response plus telemetry (attempt count
and the queries forwarded to the execution gateway). -/
structure AskRun where
  response : AskResponse
  attempts : Nat
  execTrace : List Str
deriving DecidableEq, Repr

/-- The catch handler of `/api/ask`. -/
def mkCatch (m : Str) (attempts : Nat) (trace : List Str) : AskRun :=
  ⟨if isRateLimitMsg m then resp429 m else resp500 m, attempts, trace⟩

/-- The tail of `/api/ask` after the correction loop: the 422 terminal
failure, or the success response (with the optional dynamic-UI call, whose
failure falls into the catch handler). -/
def askFinish (o : AskOracles) (intents : List ExtractedIntent) (att : Nat) (tr : List Str)
    (sqlF : Str) (results : ExecResult) : AskRun :=
  match errTruthy results with
  | some e =>
    ⟨⟨422, some false, some sqlF, some e, none, some intents, none, none, none⟩, att, tr⟩
  | none =>
    let rows := match results with | .rows r => r | .err _ => []
    let finish := fun (c1 : Option Str) =>
      let c1v := c1.bind (fun s => if s.isEmpty then none else some s)
      (⟨⟨200, some true, some sqlF, none, none, some intents, some rows,
        some rows.length, c1v⟩, att, tr⟩ : AskRun)
    if o.thesysKey then
      match o.thesysResult with
      | .error m => mkCatch m att tr
      | .ok c1 => finish c1
    else finish none

/-- Truthiness of the optional validation error (`revalidate.error`). -/
def vErrTruthyOf (v : ValidationResult) : Bool :=
  match v.error with | some msg => !msg.isEmpty | none => false

/-- The pre-loop results of `/api/ask`: validation error, missing-WHERE error,
or the first execution; paired with the executed-query trace. -/
def preExec (o : AskOracles) (intents : List ExtractedIntent) (v : ValidationResult) :
    ExecResult × List Str :=
  if !v.valid && vErrTruthyOf v then (.err (v.error.getD []), [])
  else if !intents.isEmpty && !reTest reWhere v.sql then (.err missingWhereMsg, [])
  else (executeMatrimonialQuery (o.dbRun v.sql), [v.sql])

/-- `/api/ask` from SQL generation onwards: validate and auto-fix, run or
reject (validation error, missing WHERE), then the correction loop. -/
def askAfterGen (o : AskOracles) (intents : List ExtractedIntent) (sql0 : Str) : AskRun :=
  let v := validateAndFixSql sql0 intents
  match correctionLoop o intents maxCorrectionAttempts v.sql
      (preExec o intents v).1 1 (preExec o intents v).2 with
  | (.error m, att, tr) => mkCatch m att tr
  | (.ok (sqlF, results), att, tr) => askFinish o intents att tr sqlF results

/-- The `/api/ask` handler of `app.ts`. -/
def askHandler (o : AskOracles) (question : Option Str) : AskRun :=
  match question with
  | none => ⟨resp400Ask, 0, []⟩
  | some q =>
    if q.isEmpty then ⟨resp400Ask, 0, []⟩
    else
      match o.contextResult, o.intentResult with
      | .error m, _ => mkCatch m 0 []
      | .ok _, .error m => mkCatch m 0 []
      | .ok _, .ok intents =>
        match generateMatrimonialSQLModel o intents with
        | .error m => mkCatch m 0 []
        | .ok sql0 => askAfterGen o intents sql0

/-- The SELECT guard of `/api/execute`: `/^\s*SELECT\s+/i.test(sql)`.  The
anchored `\s*` is maximal-munch here because no whitespace character can start
`SELECT`, so `dropWhile` is an exact embedding. -/
def testSelectStart (s : Str) : Bool :=
  match s.dropWhile jsSpace with
  | a :: b :: c :: d :: e :: f :: g :: _ =>
    ([a, b, c, d, e, f].map Char.toLower == "select".toList) && jsSpace g
  | _ => false

/-- The query the `/api/execute` endpoint forwards to the execution gateway,
if any: `none` when the body is missing/non-string/empty or the SELECT guard
rejects it. -/
def executeEndpointForwarded (body : Option Str) : Option Str :=
  match body with
  | none => none
  | some raw =>
    if raw.isEmpty then none
    else
      let sql := trimStr raw
      if testSelectStart sql then some sql else none

/-- Definition following the spec's words (for comparison with the code): the
leading verb of a statement, the first run of letters after whitespace,
lowercased. -/
def specLeadingVerb (s : Str) : Str :=
  lowerStr ((s.dropWhile jsSpace).takeWhile (fun c => asciiLetter c))

/-- Definition following the spec's words: write/mutation verbs. -/
def specWriteVerbs : List Str :=
  ["insert".toList, "update".toList, "delete".toList, "drop".toList, "alter".toList,
   "create".toList, "truncate".toList, "grant".toList, "revoke".toList, "merge".toList]

/-- Definition following the spec's words: "a write/mutation verb as its
leading statement". -/
def specWriteVerbLeading (s : Str) : Bool := specWriteVerbs.contains (specLeadingVerb s)

/-! ## Cleanliness: queries the validator leaves untouched -/

/-- A query/intent pair is clean when the trimmed query triggers none of the
validator's rewrite rules and passes every check: every pass over it is the
identity and pushes no fix. -/
def cleanQuery (x : Str) (intent : List ExtractedIntent) : Bool :=
  let s := trimStr x
  let values := intent.map (fun i => escQuotes i.value)
  (s == x) &&
  !guard1a s && !guard1b s && !guard1c s &&
  (stepCity s intent == (s, [])) &&
  (stepProfession s intent == (s, [])) &&
  !substGuard s values &&
  (stepParen s == (s, [])) &&
  !guardSemi s &&
  reTest reFromProfiles s &&
  !residueGuard s intent &&
  (!(hasAttrCI intent "first_name" || hasAttrCI intent "last_name") || hasNameInWhere s) &&
  (!hasAttrCI intent "age" || hasAgeInWhere s) &&
  !(reTest reUhDot s && !reTest reJoinUh s) &&
  !(reTest reFDot s && !reTest reJoinF s)

/-- On a clean query the validator is the identity: it returns the query
unchanged, valid, with no error and no `fixed` flag. -/
theorem cleanQuery_noop (x : Str) (intent : List ExtractedIntent)
    (h : cleanQuery x intent = true) :
    validateAndFixSql x intent = ⟨true, x, none, none⟩ := by
  simp only [cleanQuery, Bool.and_eq_true, beq_iff_eq, Bool.not_eq_true'] at h
  obtain ⟨⟨⟨⟨⟨⟨⟨⟨⟨⟨⟨⟨⟨⟨htrim, h1a⟩, h1b⟩, h1c⟩, hcity⟩, hprof⟩, hsubst⟩, hparen⟩, hsemi⟩,
    hfrom⟩, hres⟩, hname⟩, hage⟩, huh⟩, hf⟩ := h
  rw [htrim] at h1a h1b h1c hcity hprof hsubst hparen hsemi hfrom hres hname hage huh hf
  have e1 : step1a x = (x, []) := by simp [step1a, h1a]
  have e2 : step1b x = (x, []) := by simp [step1b, h1b]
  have e3 : step1c x = x := by simp [step1c, h1c]
  have e6 : stepPlaceholders x (intent.map (fun i => escQuotes i.value)) = (x, []) := by
    simp [stepPlaceholders, hsubst]
  have e8 : stepSemicolon x = (x, []) := by simp [stepSemicolon, hsemi]
  have hfix : fixPhase (trimStr x) intent = (x, []) := by
    rw [htrim]
    simp [fixPhase, e1, e2, e3, hcity, hprof, e6, hparen, e8]
  have hjoin : checkJoinPhase x [] = ⟨true, x, none, none⟩ := by
    simp [checkJoinPhase, huh, hf, mkValid]
  have hagephase : checkAgePhase x intent [] = ⟨true, x, none, none⟩ := by
    cases hA : hasAttrCI intent "age" with
    | false => simp [checkAgePhase, hA, hjoin]
    | true =>
      rw [hA] at hage
      simp only [Bool.not_true, Bool.false_or] at hage
      simp [checkAgePhase, hA, hage, hjoin]
  have hnamephase : checkNamePhase x intent [] = ⟨true, x, none, none⟩ := by
    cases hN : (hasAttrCI intent "first_name" || hasAttrCI intent "last_name") with
    | false => simp [checkNamePhase, hN, hagephase]
    | true =>
      rw [hN] at hname
      simp only [Bool.not_true, Bool.false_or] at hname
      simp [checkNamePhase, hN, hname, hagephase]
  simp [validateAndFixSql, hfix, hfrom, hres, hnamephase]

set_option maxRecDepth 8000

/-! ## C1: validator idempotence -/

/-- A query whose text before `LIMIT` ends in a doubled closing parenthesis;
the parenthesis-strip rule fires again on its own output. -/
def c1Query : Str := "SELECT p.profile_id FROM profiles p WHERE (((a = 1))) LIMIT 5".toList

/-- C1 counterexample: the validator is not idempotent.  On `c1Query` (empty
intent) the first pass strips one parenthesis; the second pass, run on the
first pass's output, strips another: it reports `fixed = true` and returns a
different query string, contradicting
`validate(validate(q)) == validate(q)` with `fixed=false` on the second pass. -/
theorem c1_idempotence_counterexample :
    ((validateAndFixSql (validateAndFixSql c1Query []).sql []).fixed = some true) ∧
    (((validateAndFixSql (validateAndFixSql c1Query []).sql []).sql ==
      (validateAndFixSql c1Query []).sql) = false) := by
  exact ⟨by decide, by decide⟩

/-- C1 amended: the validator is idempotent only on output it leaves untouched:
whenever the first pass's output triggers none of the rewrite rules and passes
every check (`cleanQuery`), the second pass returns it unchanged with
`valid = true`, no error and no `fixed` flag; in general a second pass can
re-trigger a rule (see the counterexample). -/
theorem c1_idempotent_on_clean (q : Str) (intent : List ExtractedIntent)
    (h : cleanQuery (validateAndFixSql q intent).sql intent = true) :
    validateAndFixSql ((validateAndFixSql q intent).sql) intent =
      ⟨true, (validateAndFixSql q intent).sql, none, none⟩ :=
  cleanQuery_noop _ _ h

/-- C1 witness: a concrete clean run of the amended theorem. -/
theorem c1_idempotent_on_clean_witness :
    (cleanQuery (validateAndFixSql "SELECT p.profile_id FROM profiles p LIMIT 50".toList []).sql
      [] = true) ∧
    validateAndFixSql
        ((validateAndFixSql "SELECT p.profile_id FROM profiles p LIMIT 50".toList []).sql) [] =
      ⟨true, (validateAndFixSql "SELECT p.profile_id FROM profiles p LIMIT 50".toList []).sql,
        none, none⟩ :=
  ⟨by decide, c1_idempotent_on_clean "SELECT p.profile_id FROM profiles p LIMIT 50".toList []
    (by decide)⟩

/-! ## C2: correction-loop termination and attempt bound -/

/-- The correction loop never raises the attempt counter beyond
`MAX_CORRECTION_ATTEMPTS` (when it starts below it), and adds at most one
executed query per new attempt. -/
theorem correctionLoop_bound (o : AskOracles) (intents : List ExtractedIntent) :
    ∀ (fuel : Nat) (sql : Str) (res : ExecResult) (att : Nat) (tr : List Str),
      att ≤ maxCorrectionAttempts →
      att ≤ (correctionLoop o intents fuel sql res att tr).2.1 ∧
      (correctionLoop o intents fuel sql res att tr).2.1 ≤ maxCorrectionAttempts ∧
      (correctionLoop o intents fuel sql res att tr).2.2.length ≤
        tr.length + ((correctionLoop o intents fuel sql res att tr).2.1 - att) := by
  intro fuel
  induction fuel with
  | zero =>
    intro sql res att tr hle
    simp only [correctionLoop]
    exact ⟨le_refl _, hle, by simp⟩
  | succ n ih =>
    intro sql res att tr hle
    simp only [correctionLoop]
    cases errTruthy res with
    | none => exact ⟨le_refl _, hle, by simp⟩
    | some e =>
      simp only
      by_cases hatt : att < maxCorrectionAttempts
      · simp only [hatt, if_true]
        cases o.correctedSql att sql e with
        | error ex => exact ⟨le_refl _, hle, by simp⟩
        | ok newSql =>
          simp only
          set v := validateAndFixSql newSql intents with hv
          by_cases hbranch :
              (!v.valid && match v.error with | some msg => !msg.isEmpty | none => false) = true
          · simp only [hbranch, if_true]
            obtain ⟨ha, hb, hc⟩ := ih v.sql (.err (v.error.getD [])) (att + 1) tr (by omega)
            refine ⟨by omega, hb, by omega⟩
          · simp only [hbranch, Bool.false_eq_true, if_false]
            obtain ⟨ha, hb, hc⟩ :=
              ih v.sql (executeMatrimonialQuery (o.dbRun v.sql)) (att + 1) (tr ++ [v.sql])
                (by omega)
            simp only [List.length_append, List.length_cons, List.length_nil] at hc
            refine ⟨by omega, hb, by omega⟩
      · simp only [hatt, if_false]
        exact ⟨le_refl _, hle, by simp⟩

/-- The attempt count and executed-query trace of the post-loop tail are the
loop's. -/
theorem askFinish_telemetry (o : AskOracles) (intents : List ExtractedIntent) (att : Nat)
    (tr : List Str) (sqlF : Str) (results : ExecResult) :
    (askFinish o intents att tr sqlF results).attempts = att ∧
    (askFinish o intents att tr sqlF results).execTrace = tr := by
  unfold askFinish
  cases errTruthy results with
  | some e => exact ⟨rfl, rfl⟩
  | none =>
    simp only
    cases o.thesysKey with
    | false => simp
    | true =>
      simp only [if_true]
      cases o.thesysResult with
      | error m => unfold mkCatch; split <;> simp
      | ok c1 => simp

/-- Zeta-expanded equation of `askAfterGen` (for rewriting without evaluating
the loop). -/
theorem askAfterGen_eq (o : AskOracles) (intents : List ExtractedIntent) (sql0 : Str) :
    askAfterGen o intents sql0 =
      match correctionLoop o intents maxCorrectionAttempts
          (validateAndFixSql sql0 intents).sql
          (preExec o intents (validateAndFixSql sql0 intents)).1 1
          (preExec o intents (validateAndFixSql sql0 intents)).2 with
      | (.error m, att, tr) => mkCatch m att tr
      | (.ok (sqlF, results), att, tr) => askFinish o intents att tr sqlF results := rfl

/-- The pre-loop phase executes at most one query. -/
theorem preExec_trace_le (o : AskOracles) (intents : List ExtractedIntent)
    (v : ValidationResult) : (preExec o intents v).2.length ≤ 1 := by
  unfold preExec
  split
  · simp
  · split <;> simp

/-- Attempt and execution bounds for the generation-onwards part of the
pipeline. -/
theorem askAfterGen_bound (o : AskOracles) (intents : List ExtractedIntent) (sql0 : Str) :
    (askAfterGen o intents sql0).attempts ≤ maxCorrectionAttempts ∧
    (askAfterGen o intents sql0).execTrace.length ≤ maxCorrectionAttempts := by
  rw [askAfterGen_eq]
  have hpre1 := preExec_trace_le o intents (validateAndFixSql sql0 intents)
  have hb := correctionLoop_bound o intents maxCorrectionAttempts
    (validateAndFixSql sql0 intents).sql
    (preExec o intents (validateAndFixSql sql0 intents)).1 1
    (preExec o intents (validateAndFixSql sql0 intents)).2
    (by simp [maxCorrectionAttempts])
  rcases hL : correctionLoop o intents maxCorrectionAttempts
      (validateAndFixSql sql0 intents).sql
      (preExec o intents (validateAndFixSql sql0 intents)).1 1
      (preExec o intents (validateAndFixSql sql0 intents)).2 with ⟨exc, att, tr⟩
  rw [hL] at hb
  obtain ⟨ha, hb2, hc⟩ := hb
  simp only at ha hb2 hc
  have hm3 : maxCorrectionAttempts = 3 := rfl
  cases exc with
  | error m =>
    simp only [mkCatch]
    exact ⟨hb2, by omega⟩
  | ok pr =>
    rcases pr with ⟨sqlF, results⟩
    simp only
    obtain ⟨hfa, hft⟩ := askFinish_telemetry o intents att tr sqlF results
    rw [hfa, hft]
    exact ⟨hb2, by omega⟩

/-- C2: the correction orchestrator always terminates (it is a total function
of the oracles) and performs at most `MAX_CORRECTION_ATTEMPTS = 3` attempts:
the reported attempt count never exceeds 3 and at most 3 queries are ever
forwarded to the execution gateway, regardless of the validation or execution
errors produced along the way. -/
theorem c2_correction_loop_bounded (o : AskOracles) (q : Option Str) :
    (askHandler o q).attempts ≤ maxCorrectionAttempts ∧
    (askHandler o q).execTrace.length ≤ maxCorrectionAttempts := by
  unfold askHandler
  cases q with
  | none => simp [maxCorrectionAttempts]
  | some s =>
    cases hq : s.isEmpty with
    | true =>
      simp only [List.isEmpty_iff] at hq
      subst hq
      simp [maxCorrectionAttempts]
    | false =>
      simp only [hq, Bool.false_eq_true, if_false]
      cases hctx : o.contextResult with
      | error m => simp [hctx, mkCatch, maxCorrectionAttempts]
      | ok ctx =>
        cases hint : o.intentResult with
        | error m => simp [hctx, hint, mkCatch, maxCorrectionAttempts]
        | ok intents =>
          cases hgen : generateMatrimonialSQLModel o intents with
          | error m => simp [hctx, hint, hgen, mkCatch, maxCorrectionAttempts]
          | ok sql0 =>
            simp only [hctx, hint, hgen]
            exact askAfterGen_bound o intents sql0

/-! ## C8: fallback extractor totality and origin/residence exclusivity -/

/-- Every entry a fallback rule pushes carries that rule's attribute. -/
theorem fbPush_attr (a : String) (v : Option Str) :
    ∀ i ∈ fbPush a v, i.attr = a.toList := by
  cases v with
  | none => simp [fbPush]
  | some w => simp [fbPush]

/-- A fallback rule never contributes a different attribute. -/
theorem fbPush_any_ne (a : String) (v : Option Str) (b : Str) (hne : a.toList ≠ b) :
    (fbPush a v).any (fun i => i.attr == b) = false := by
  cases v with
  | none => simp [fbPush]
  | some w =>
    simp [fbPush]
    exact hne

/-- The attribute vocabulary of the fallback extractor. -/
def fbVocab : List Str :=
  ["profession".toList, "native_place".toList, "city".toList, "income".toList,
   "religion".toList, "caste".toList, "mother_tongue".toList, "first_name".toList, "age".toList]

/-- C8: the rule-based fallback extractor is a total function (it is modelled
as one, returning a possibly empty list), its output draws only on the fixed
attribute vocabulary, and it never contains both the origin attribute
(`native_place`) and the current-residence attribute (`city`): the city rule
runs only when no `native_place` intent was produced. -/
theorem c8_fallback_exclusive (question : Str) :
    (((fallbackExtractIntent question).any (fun i => i.attr == "native_place".toList)) &&
     ((fallbackExtractIntent question).any (fun i => i.attr == "city".toList))) = false ∧
    (fallbackExtractIntent question).all (fun i => fbVocab.contains i.attr) = true := by
  unfold fallbackExtractIntent
  simp only
  set lower := lowerStr (trimStr question) with hlow
  set q := trimStr question with hq
  set vP := (fbCap1 (reSearch reFbProfession lower)).map trimStr with hvP
  set vN := (fbCap1 ((reSearch reFbNative1 lower).orElse
    (fun _ => reSearch reFbNative2 q))).map trimStr with hvN
  set vC := (fbCap1 ((reSearch reFbCity1 q).orElse
    (fun _ => reSearch reFbCity2 q))).map trimStr with hvC
  set vI := (fbCap1 ((reSearch reFbIncome1 lower).orElse
    (fun _ => reSearch reFbIncome2 lower))).map (fun v => v ++ " LPA".toList) with hvI
  set vR := (fbCap1 (reSearch reFbReligion lower)).map trimStr with hvR
  set vK := (fbCap1 (reSearch reFbCaste lower)).map trimStr with hvK
  set vM := (fbCap1 ((reSearch reFbLang1 lower).orElse
    (fun _ => reSearch reFbLang2 q))).map trimStr with hvM
  set vF := (fbCap1 ((reSearch reFbName1 q).orElse
    (fun _ => (reSearch reFbName2 q).orElse (fun _ => reSearch reFbName3 q)))).map trimStr with hvF
  set mAge := (reSearch reFbAge1 lower).orElse (fun _ => reSearch reFbAge2 lower) with hmA
  set agePart : List ExtractedIntent :=
    (match fbCap1 mAge, fbCap2 mAge with
     | some v1, some v2 => [⟨"age".toList, v1 ++ "-".toList ++ v2⟩]
     | _, _ => []) with hage
  have hAgeAttr : ∀ i ∈ agePart, i.attr = "age".toList := by
    rw [hage]
    cases fbCap1 mAge <;> cases fbCap2 mAge <;> simp
  have hAgeAnyNe : ∀ b : Str, "age".toList ≠ b → (agePart.any (fun i => i.attr == b)) = false := by
    intro b hb
    rw [List.any_eq_false]
    intro i hi
    simp [hAgeAttr i hi]
    exact hb
  constructor
  · by_cases hguard :
        ((fbPush "profession" vP ++ fbPush "native_place" vN).any
          (fun i => i.attr == "native_place".toList)) = true
    · simp only [hguard, if_true]
      have hcity :
          ((fbPush "profession" vP ++ fbPush "native_place" vN ++ [] ++ fbPush "income" vI ++
            fbPush "religion" vR ++ fbPush "caste" vK ++ fbPush "mother_tongue" vM ++
            fbPush "first_name" vF ++ agePart).any (fun i => i.attr == "city".toList)) = false := by
        simp only [List.any_append, Bool.or_eq_false_iff]
        refine ⟨⟨⟨⟨⟨⟨⟨⟨?_, ?_⟩, ?_⟩, ?_⟩, ?_⟩, ?_⟩, ?_⟩, ?_⟩, ?_⟩
        · exact fbPush_any_ne _ _ _ (by decide)
        · exact fbPush_any_ne _ _ _ (by decide)
        · simp
        · exact fbPush_any_ne _ _ _ (by decide)
        · exact fbPush_any_ne _ _ _ (by decide)
        · exact fbPush_any_ne _ _ _ (by decide)
        · exact fbPush_any_ne _ _ _ (by decide)
        · exact fbPush_any_ne _ _ _ (by decide)
        · exact hAgeAnyNe _ (by decide)
      rw [hcity]
      simp
    · simp only [hguard, Bool.false_eq_true, if_false]
      have hnat :
          ((fbPush "profession" vP ++ fbPush "native_place" vN ++ fbPush "city" vC ++
            fbPush "income" vI ++ fbPush "religion" vR ++ fbPush "caste" vK ++
            fbPush "mother_tongue" vM ++ fbPush "first_name" vF ++ agePart).any
            (fun i => i.attr == "native_place".toList)) = false := by
        simp only [List.any_append, Bool.or_eq_false_iff]
        have hpn := hguard
        rw [List.any_append] at hpn
        simp only [Bool.or_eq_true, not_or, Bool.not_eq_true] at hpn
        refine ⟨⟨⟨⟨⟨⟨⟨⟨?_, ?_⟩, ?_⟩, ?_⟩, ?_⟩, ?_⟩, ?_⟩, ?_⟩, ?_⟩ <;>
          first
            | exact hpn.1
            | exact hpn.2
            | exact fbPush_any_ne _ _ _ (by decide)
            | exact hAgeAnyNe _ (by decide)
      rw [hnat]
      simp
  · by_cases hguard :
        ((fbPush "profession" vP ++ fbPush "native_place" vN).any
          (fun i => i.attr == "native_place".toList)) = true <;>
      simp only [hguard, if_true, if_false, Bool.false_eq_true] <;>
      · rw [List.all_eq_true]
        intro i hi
        simp only [List.append_assoc, List.mem_append] at hi
        rcases hi with hi | hi | hi | hi | hi | hi | hi | hi | hi <;>
          first
            | (rw [fbPush_attr _ _ _ hi]; decide)
            | (rw [hAgeAttr _ hi]; decide)
            | simp at hi

/-! ## C10: totality of the execution gateway -/

/-- C10: `executeMatrimonialQuery` is total over the modelled database call:
for every behaviour it returns either a row array or a single error message,
never both; an absent rows array yields the empty array, an `Error` rejection
its message, a non-`Error` rejection the fixed unknown-error message. -/
theorem c10_executor_total :
    (∀ r : List Row, executeMatrimonialQuery (.result (some r)) = .rows r) ∧
    executeMatrimonialQuery (.result none) = .rows [] ∧
    (∀ m : Str, executeMatrimonialQuery (.throwErr m) = .err m) ∧
    executeMatrimonialQuery .throwNonError = .err "Unknown error occurred".toList ∧
    (∀ db : DbOutcome, (∃ r, executeMatrimonialQuery db = .rows r) ∨
      (∃ m, executeMatrimonialQuery db = .err m)) := by
  refine ⟨fun r => rfl, rfl, fun m => rfl, rfl, fun db => ?_⟩
  cases db with
  | result rf =>
    cases rf with
    | none => exact .inl ⟨[], rfl⟩
    | some r => exact .inl ⟨r, rfl⟩
  | throwErr m => exact .inr ⟨m, rfl⟩
  | throwNonError => exact .inr ⟨_, rfl⟩

/-! ## C5: read-only guard at the execution boundary -/

/-- A whitespace character is not a letter. -/
theorem asciiLetter_of_jsSpace (g : Char) (h : jsSpace g = true) : asciiLetter g = false := by
  simp only [jsSpace, Bool.or_eq_true, beq_iff_eq] at h
  rcases h with ((((h | h) | h) | h) | h) | h <;> subst h <;> decide

/-- If the lowercased character is a letter, so was the original. -/
theorem asciiLetter_of_toLower (c : Char) (h : asciiLetter c.toLower = true) :
    asciiLetter c = true := by
  by_cases hc : c.toNat ≥ 65 ∧ c.toNat ≤ 90
  · simp only [asciiLetter, Bool.or_eq_true, Bool.and_eq_true, decide_eq_true_eq]
    right
    constructor
    · rw [Char.le_def, UInt32.le_def, BitVec.le_def]
      simpa [Char.toNat, UInt32.toNat] using hc.1
    · rw [Char.le_def, UInt32.le_def, BitVec.le_def]
      simpa [Char.toNat, UInt32.toNat] using hc.2
  · have : c.toLower = c := by
      unfold Char.toLower
      exact if_neg hc
    rw [this] at h
    exact h

/-- C5 amended: the raw-query endpoint (`/api/execute`) enforces the read-only
pre-check: every query it forwards to the execution gateway has leading verb
`select` and in particular no write/mutation verb (in the spec's sense).  The
main `/api/ask` pipeline performs no such syntactic pre-check — see the
counterexample — so read-only there rests on the gateway credential. -/
theorem c5_execute_endpoint_select_only (body : Option Str) (sql : Str)
    (h : executeEndpointForwarded body = some sql) :
    specLeadingVerb sql = "select".toList ∧ specWriteVerbLeading sql = false := by
  have hts : testSelectStart sql = true := by
    unfold executeEndpointForwarded at h
    cases body with
    | none => simp at h
    | some raw =>
      by_cases hr : raw.isEmpty
      · simp [hr] at h
      · simp only [hr, Bool.false_eq_true, if_false] at h
        by_cases ht : testSelectStart (trimStr raw)
        · simp only [ht, if_true, Option.some.injEq] at h
          rw [← h]
          exact ht
        · simp [ht] at h
  have hverb : specLeadingVerb sql = "select".toList := by
    unfold testSelectStart at hts
    unfold specLeadingVerb
    split at hts
    · rename_i a b c d e f g rest heq
      rw [Bool.and_eq_true, beq_iff_eq] at hts
      obtain ⟨hmap, hg⟩ := hts
      simp only [List.map_cons, List.map_nil] at hmap
      have e1 : a.toLower = 's' := by injection hmap with x hmap
      have hmap2 := hmap
      injection hmap2 with e1 hmap2
      injection hmap2 with e2 hmap2
      injection hmap2 with e3 hmap2
      injection hmap2 with e4 hmap2
      injection hmap2 with e5 hmap2
      injection hmap2 with e6 hmap2
      have l1 : asciiLetter a = true := asciiLetter_of_toLower _ (by rw [e1]; decide)
      have l2 : asciiLetter b = true := asciiLetter_of_toLower _ (by rw [e2]; decide)
      have l3 : asciiLetter c = true := asciiLetter_of_toLower _ (by rw [e3]; decide)
      have l4 : asciiLetter d = true := asciiLetter_of_toLower _ (by rw [e4]; decide)
      have l5 : asciiLetter e = true := asciiLetter_of_toLower _ (by rw [e5]; decide)
      have l6 : asciiLetter f = true := asciiLetter_of_toLower _ (by rw [e6]; decide)
      have lg : asciiLetter g = false := asciiLetter_of_jsSpace _ hg
      rw [heq]
      simp only [List.takeWhile_cons, l1, l2, l3, l4, l5, l6, lg, if_true, if_false,
        Bool.false_eq_true, lowerStr, List.map_cons, List.map_nil, e1, e2, e3, e4, e5, e6]
      rfl
    · simp at hts
  refine ⟨hverb, ?_⟩
  unfold specWriteVerbLeading
  rw [hverb]
  decide

/-- C5 witness: a concrete body accepted by the raw endpoint. -/
theorem c5_execute_endpoint_select_only_witness :
    executeEndpointForwarded (some "  SELECT * FROM profiles p".toList) =
      some "SELECT * FROM profiles p".toList ∧
    specLeadingVerb "SELECT * FROM profiles p".toList = "select".toList ∧
    specWriteVerbLeading "SELECT * FROM profiles p".toList = false :=
  ⟨by decide, c5_execute_endpoint_select_only (some "  SELECT * FROM profiles p".toList)
    "SELECT * FROM profiles p".toList (by decide)⟩

/-! ## C9: content of user-visible failures -/

/-- The catch handler never answers with status 422. -/
theorem mkCatch_status_ne (m : Str) (att : Nat) (tr : List Str) :
    ((mkCatch m att tr).response.status = 422) = False := by
  unfold mkCatch
  split <;> simp [resp429, resp500]

/-- If the post-loop tail answers 422, the response carries the last attempted
query, the extracted intent and the error. -/
theorem askFinish_422 (o : AskOracles) (intents : List ExtractedIntent) (att : Nat)
    (tr : List Str) (sqlF : Str) (results : ExecResult)
    (h : (askFinish o intents att tr sqlF results).response.status = 422) :
    (askFinish o intents att tr sqlF results).response.generated_sql.isSome = true ∧
    (askFinish o intents att tr sqlF results).response.extracted_intent.isSome = true ∧
    (askFinish o intents att tr sqlF results).response.error.isSome = true := by
  unfold askFinish at h ⊢
  cases hE : errTruthy results with
  | some e => simp [hE]
  | none =>
    exfalso
    rw [hE] at h
    simp only [] at h
    cases hk : o.thesysKey with
    | false =>
      rw [hk] at h
      simp at h
    | true =>
      rw [hk] at h
      simp only [if_true] at h
      cases hth : o.thesysResult with
      | error m =>
        rw [hth] at h
        simp only [] at h
        rw [mkCatch_status_ne] at h
        exact h
      | ok c1 =>
        rw [hth] at h
        simp at h

/-- Same property one level up, for the generation-onwards pipeline part. -/
theorem askAfterGen_422 (o : AskOracles) (intents : List ExtractedIntent) (sql0 : Str)
    (h : (askAfterGen o intents sql0).response.status = 422) :
    (askAfterGen o intents sql0).response.generated_sql.isSome = true ∧
    (askAfterGen o intents sql0).response.extracted_intent.isSome = true ∧
    (askAfterGen o intents sql0).response.error.isSome = true := by
  rw [askAfterGen_eq] at h ⊢
  rcases hL : correctionLoop o intents maxCorrectionAttempts
      (validateAndFixSql sql0 intents).sql
      (preExec o intents (validateAndFixSql sql0 intents)).1 1
      (preExec o intents (validateAndFixSql sql0 intents)).2 with ⟨exc, att, tr⟩
  rw [hL] at h
  cases exc with
  | error m =>
    simp only [] at h
    rw [mkCatch_status_ne] at h
    exact h.elim
  | ok pr =>
    rcases pr with ⟨sqlF, results⟩
    simp only [] at h ⊢
    exact askFinish_422 o intents att tr sqlF results h

/-- C9 amended: the terminal failure of the correction loop (the only
422 response of `/api/ask`) always carries the last attempted query text, the
extracted intent and the error; the rate-limit (429) and exception (500)
responses carry only the error and a detail string — see the counterexample. -/
theorem c9_terminal_failure_includes_sql_intent (o : AskOracles) (q : Option Str)
    (h : (askHandler o q).response.status = 422) :
    (askHandler o q).response.generated_sql.isSome = true ∧
    (askHandler o q).response.extracted_intent.isSome = true ∧
    (askHandler o q).response.error.isSome = true := by
  unfold askHandler at h ⊢
  cases q with
  | none => simp [resp400Ask] at h
  | some s =>
    cases hq : s.isEmpty with
    | true =>
      simp only [List.isEmpty_iff] at hq
      subst hq
      simp [resp400Ask] at h
    | false =>
      simp only [hq, Bool.false_eq_true, if_false] at h ⊢
      cases hctx : o.contextResult with
      | error m => simp only [hctx, mkCatch_status_ne] at h
      | ok ctx =>
        cases hint : o.intentResult with
        | error m => simp only [hctx, hint, mkCatch_status_ne] at h
        | ok intents =>
          cases hgen : generateMatrimonialSQLModel o intents with
          | error m => simp only [hctx, hint, hgen, mkCatch_status_ne] at h
          | ok sql0 =>
            simp only [hctx, hint, hgen] at h ⊢
            exact askAfterGen_422 o intents sql0 h

/-! ## Builder structure: covered items and conditions (C3, C4, C6) -/

/-- An intent item is covered when its (normalized) attribute has a SQL
pattern in `INTENT_TO_SQL`. -/
def coveredItem (i : ExtractedIntent) : Bool := !(getSqlPattern i.attr).isEmpty

/-- All attributes of the intent list are covered (after normalization). -/
def intentCovered (intent : List ExtractedIntent) : Bool :=
  (normalizeIntentList intent).all coveredItem

/-- The condition loop emits a predicate exactly for covered items. -/
theorem condOfItem_isSome (i : ExtractedIntent) : (condOfItem i).isSome = coveredItem i := by
  unfold condOfItem coveredItem
  by_cases h : (getSqlPattern i.attr).isEmpty
  · simp [h]
  · simp [h]

/-- The conditions array is, in order, one predicate per covered item
(duplicates included, uncovered items silently skipped). -/
theorem buildConditions_eq (l : List ExtractedIntent) :
    buildConditions l = (l.filter coveredItem).map (fun i => (condOfItem i).getD []) := by
  induction l with
  | nil => rfl
  | cons a l ih =>
    unfold buildConditions at ih ⊢
    cases hc : condOfItem a with
    | none =>
      have ha : coveredItem a = false := by rw [← condOfItem_isSome, hc]; rfl
      simp [List.filterMap_cons, hc, List.filter_cons, ha, ih]
    | some c =>
      have ha : coveredItem a = true := by rw [← condOfItem_isSome, hc]; rfl
      simp [List.filterMap_cons, hc, List.filter_cons, ha, ih]

/-- A wrapped predicate containing an `OR` separator is parenthesized. -/
theorem wrapOr_or_parens (e : Str) (h : containsSub " OR ".toList (wrapOr e) = true) :
    (wrapOr e).head? = some '(' ∧ (wrapOr e).getLast? = some ')' := by
  unfold wrapOr at h ⊢
  by_cases hc : containsSub " OR ".toList e
  · simp only [hc, if_true]
    refine ⟨rfl, ?_⟩
    rw [show ('(' :: e ++ [')'] : Str) = ('(' :: e) ++ [')'] from rfl]
    exact List.getLast?_concat _
  · simp only [hc, Bool.false_eq_true, if_false] at h

/-- Every emitted predicate that contains a top-level `OR` separator was
parenthesized by the builder. -/
theorem condOfItem_or_wrapped (i : ExtractedIntent) (c : Str) (hc : condOfItem i = some c)
    (hor : containsSub " OR ".toList c = true) :
    c.head? = some '(' ∧ c.getLast? = some ')' := by
  unfold condOfItem at hc
  by_cases hemp : (getSqlPattern i.attr).isEmpty
  · simp [hemp] at hc
  · simp only [hemp, Bool.false_eq_true, if_false, Option.some.injEq] at hc
    rw [← hc] at hor ⊢
    exact wrapOr_or_parens _ hor

/-- Normalization preserves emptiness of the intent list. -/
theorem normalizeIntentList_isEmpty (l : List ExtractedIntent) :
    (normalizeIntentList l).isEmpty = l.isEmpty := by
  cases l <;> rfl

/-! ## C4: AND-only composition of the built WHERE clause -/

/-- C4 amended: for every intent list with two or more entries, the builder
combines predicates with top-level `AND` only: the WHERE clause is the
`" AND "`-join of one predicate per covered intent item — duplicates each
contribute a predicate (the builder does not collapse to the first
occurrence), uncovered items contribute none — and any predicate containing an
`" OR "` is parenthesized, so `OR` stays nested inside a single item's
predicate. -/
theorem c4_and_only_composition (intent : List ExtractedIntent) (h2 : 2 ≤ intent.length) :
    (buildConditions (normalizeIntentList intent)).length =
      ((normalizeIntentList intent).filter coveredItem).length ∧
    (∀ c ∈ buildConditions (normalizeIntentList intent),
      containsSub " OR ".toList c = true → c.head? = some '(' ∧ c.getLast? = some ')') ∧
    (((normalizeIntentList intent).filter coveredItem).length ≠ 0 →
      ∃ pre post, buildSqlFromIntent intent =
        pre ++ " WHERE ".toList ++
          List.intercalate " AND ".toList (buildConditions (normalizeIntentList intent)) ++
          post) := by
  refine ⟨by rw [buildConditions_eq, List.length_map], ?_, ?_⟩
  · intro c hcmem hor
    unfold buildConditions at hcmem
    rw [List.mem_filterMap] at hcmem
    obtain ⟨i, _, hi⟩ := hcmem
    exact condOfItem_or_wrapped i c hi hor
  · intro hne
    have hnorm : (normalizeIntentList intent).isEmpty = false := by
      rw [normalizeIntentList_isEmpty]
      cases intent with
      | nil => simp at h2
      | cons a l => rfl
    have hcond : (buildConditions (normalizeIntentList intent)).isEmpty = false := by
      rw [List.isEmpty_eq_false_iff_exists_mem]
      have hlen : (buildConditions (normalizeIntentList intent)).length ≠ 0 := by
        rw [buildConditions_eq, List.length_map]
        exact hne
      cases hE : buildConditions (normalizeIntentList intent) with
      | nil => rw [hE] at hlen; simp at hlen
      | cons c cs => exact ⟨c, by simp⟩
    refine ⟨"SELECT ".toList ++
        List.intercalate ", ".toList
          (selectColumnsForIntent ((normalizeIntentList intent).map (fun i => i.attr))
            (((normalizeIntentList intent).map (fun i => intentTables i.attr)).flatten)) ++
        "\nFROM profiles p\n".toList ++
        List.intercalate "\n".toList
          (joinLinesFor (((normalizeIntentList intent).map (fun i => intentTables i.attr)).flatten)),
      "\nLIMIT 50".toList, ?_⟩
    simp only [buildSqlFromIntent, hnorm, Bool.false_eq_true, if_false, hcond,
      List.append_assoc]

/-- C4 witness: a concrete two-attribute intent instantiating the amended
composition theorem. -/
theorem c4_and_only_composition_witness :
    (2 ≤ ([⟨"profession".toList, "doctor".toList⟩,
           ⟨"city".toList, "Pune".toList⟩] : List ExtractedIntent).length) ∧
    ((buildConditions (normalizeIntentList [⟨"profession".toList, "doctor".toList⟩,
        ⟨"city".toList, "Pune".toList⟩])).length =
      ((normalizeIntentList [⟨"profession".toList, "doctor".toList⟩,
        ⟨"city".toList, "Pune".toList⟩]).filter coveredItem).length ∧
    (∀ c ∈ buildConditions (normalizeIntentList [⟨"profession".toList, "doctor".toList⟩,
        ⟨"city".toList, "Pune".toList⟩]),
      containsSub " OR ".toList c = true → c.head? = some '(' ∧ c.getLast? = some ')') ∧
    (((normalizeIntentList [⟨"profession".toList, "doctor".toList⟩,
        ⟨"city".toList, "Pune".toList⟩]).filter coveredItem).length ≠ 0 →
      ∃ pre post, buildSqlFromIntent [⟨"profession".toList, "doctor".toList⟩,
          ⟨"city".toList, "Pune".toList⟩] =
        pre ++ " WHERE ".toList ++
          List.intercalate " AND ".toList
            (buildConditions (normalizeIntentList [⟨"profession".toList, "doctor".toList⟩,
              ⟨"city".toList, "Pune".toList⟩])) ++ post)) :=
  ⟨by decide,
   c4_and_only_composition [⟨"profession".toList, "doctor".toList⟩,
     ⟨"city".toList, "Pune".toList⟩] (by decide)⟩

/-- The duplicated-attribute intent of the C4 counterexample. -/
def c4DupIntent : List ExtractedIntent :=
  [⟨"city".toList, "Pune".toList⟩, ⟨"city".toList, "Mumbai".toList⟩]

/-- C4 counterexample: with a duplicated attribute the number of top-level
AND-joined groups is the number of items (2), not the number of distinct
attributes (1), and the builder does not take only the first occurrence — the
second value also appears in the query. -/
theorem c4_counterexample :
    (buildConditions (normalizeIntentList c4DupIntent)).length = 2 ∧
    ((normalizeIntentList c4DupIntent).map (fun i => i.attr)).eraseDups.length = 1 ∧
    containsSub "Mumbai".toList (buildSqlFromIntent c4DupIntent) = true := by
  exact ⟨by decide, by decide, by decide⟩

/-! ## C6: no insufficient-coverage signal -/

/-- C6 amended: the builder returns the empty string exactly on an empty
intent and otherwise always a complete query; an attribute without an
`INTENT_TO_SQL` mapping is silently skipped — the conditions are exactly one
predicate per covered item, and `generateMatrimonialSQL` forwards the built
query for every non-empty intent without any insufficient-coverage signal. -/
theorem c6_builder_silently_skips (intent : List ExtractedIntent) :
    (buildSqlFromIntent intent = [] ↔ intent = []) ∧
    buildConditions (normalizeIntentList intent) =
      ((normalizeIntentList intent).filter coveredItem).map (fun i => (condOfItem i).getD []) ∧
    (∀ o : AskOracles, intent ≠ [] →
      generateMatrimonialSQLModel o intent = .ok (buildSqlFromIntent intent)) := by
  refine ⟨⟨?_, ?_⟩, buildConditions_eq _, ?_⟩
  · intro h
    by_contra hne
    have hnorm : (normalizeIntentList intent).isEmpty = false := by
      rw [normalizeIntentList_isEmpty]
      cases intent with
      | nil => exact absurd rfl hne
      | cons a l => rfl
    simp only [buildSqlFromIntent, hnorm, Bool.false_eq_true, if_false] at h
    simp at h
  · intro h
    subst h
    rfl
  · intro o hne
    have hnorm : (normalizeIntentList intent).isEmpty = false := by
      rw [normalizeIntentList_isEmpty]
      cases intent with
      | nil => exact absurd rfl hne
      | cons a l => rfl
    unfold generateMatrimonialSQLModel
    simp [hnorm]

/-- C6 counterexample: for an intent whose attribute (`manglik`) has no
`AttributeMapping`, the builder does not signal insufficient coverage: it
returns a complete query that silently omits any `manglik` filter. -/
theorem c6_counterexample :
    ((buildSqlFromIntent [⟨"manglik".toList, "yes".toList⟩] == []) = false) ∧
    containsSub "manglik".toList (buildSqlFromIntent [⟨"manglik".toList, "yes".toList⟩]) =
      false ∧
    "SELECT ".toList.isPrefixOf (buildSqlFromIntent [⟨"manglik".toList, "yes".toList⟩]) =
      true := by
  exact ⟨by decide, by decide, by decide⟩

/-! ## C3: coverage correctness of the deterministic builder -/

/-- C3 amended: for a non-empty intent whose attributes are all covered, the
built query passes validation with `valid = true` and no auto-fix whenever it
triggers none of the validator's rules (`cleanQuery`); this holds for benign
values, but not universally — the builder's own output can trigger the
parenthesis auto-fix (see the counterexample). -/
theorem c3_covered_clean_passes (intent : List ExtractedIntent)
    (hne : intent ≠ []) (hcov : intentCovered intent = true)
    (hclean : cleanQuery (buildSqlFromIntent intent) intent = true) :
    validateAndFixSql (buildSqlFromIntent intent) intent =
      ⟨true, buildSqlFromIntent intent, none, none⟩ :=
  cleanQuery_noop _ _ hclean

/-- The benign covered intent of the C3 witness. -/
def c3BenignIntent : List ExtractedIntent :=
  [⟨"religion".toList, "hindu".toList⟩, ⟨"city".toList, "pune".toList⟩]

/-- C3 witness: a concrete covered intent whose built query is clean and
passes validation untouched. -/
theorem c3_covered_clean_passes_witness :
    (c3BenignIntent ≠ [] ∧ intentCovered c3BenignIntent = true ∧
      cleanQuery (buildSqlFromIntent c3BenignIntent) c3BenignIntent = true) ∧
    validateAndFixSql (buildSqlFromIntent c3BenignIntent) c3BenignIntent =
      ⟨true, buildSqlFromIntent c3BenignIntent, none, none⟩ :=
  ⟨⟨by decide, by decide, by decide⟩,
   c3_covered_clean_passes c3BenignIntent (by decide) (by decide) (by decide)⟩

/-- The covered name intent of the C3 counterexample. -/
def c3NameIntent : List ExtractedIntent := [⟨"first_name".toList, "Neha".toList⟩]

/-- C3 counterexample: `first_name` is covered, yet the built query does not
pass validation untouched — its OR-wrapped predicate ends in a doubled closing
parenthesis before `LIMIT`, so the validator's parenthesis-strip auto-fix
triggers (`fixed = true`), contradicting "no auto-fix triggered". -/
theorem c3_counterexample :
    intentCovered c3NameIntent = true ∧
    (validateAndFixSql (buildSqlFromIntent c3NameIntent) c3NameIntent).valid = true ∧
    (validateAndFixSql (buildSqlFromIntent c3NameIntent) c3NameIntent).fixed = some true ∧
    ((validateAndFixSql (buildSqlFromIntent c3NameIntent) c3NameIntent).sql ==
      buildSqlFromIntent c3NameIntent) = false := by
  exact ⟨by decide, by decide, by decide, by decide⟩

/-! ## C7: placeholder substitution and residue -/

/-- C7 amended: placeholder substitution consumes intent values in order
(illustrated by the two-placeholder instance below), and the residue check is
a hard failure only when the intent is non-empty: with an empty intent the
validator never returns the residue error, even when a placeholder token
remains (see the counterexample). -/
theorem c7_residue_requires_nonempty_intent :
    (∀ q : Str, ((validateAndFixSql q []).error == some errMsgResidue) = false) ∧
    substPlaceholders ["a".toList, "b".toList]
      "SELECT x FROM profiles p WHERE c1 = '%value%' AND c2 = '%value%' LIMIT 5".toList =
      "SELECT x FROM profiles p WHERE c1 = '%a%' AND c2 = '%b%' LIMIT 5".toList := by
  constructor
  · intro q
    simp only [validateAndFixSql]
    split
    · simp only [mkInvalid]
      decide
    · split
      · rename_i hres
        simp [residueGuard] at hres
      · unfold checkNamePhase
        simp only [hasAttrCI, List.any_nil, Bool.or_self, Bool.false_eq_true, if_false]
        unfold checkAgePhase
        simp only [hasAttrCI, List.any_nil, Bool.false_eq_true, if_false]
        unfold checkJoinPhase
        split
        · simp only [mkInvalid]
          decide
        · split
          · simp only [mkInvalid]
            decide
          · simp [mkValid]
  · decide

/-- C7 counterexample: a query whose body still contains the literal
placeholder `'%value%'`, validated with no intent values available, is not
rejected: the validator reports `valid = true`, contradicting the claimed hard
validation failure. -/
theorem c7_counterexample :
    (validateAndFixSql "SELECT a FROM profiles p WHERE x = '%value%' LIMIT 5".toList []).valid =
      true ∧
    containsSub "%value%".toList
      (validateAndFixSql "SELECT a FROM profiles p WHERE x = '%value%' LIMIT 5".toList []).sql =
      true := by
  exact ⟨by decide, by decide⟩

/-! ## C5 and C9: concrete pipeline runs -/

/-- Oracles whose generative synthesizer returns a DELETE-leading statement
(empty intent, database resolving normally). -/
def c5DelOracles : AskOracles :=
  ⟨.ok "ctx".toList, .ok [], .ok "DELETE FROM profiles p WHERE a = 1 LIMIT 5".toList,
   fun _ _ _ => .ok "SELECT 1".toList, fun _ => .result (some []), false, .ok none⟩

/-- C5 counterexample: the `/api/ask` pipeline has no leading-verb pre-check:
a generated statement with the write verb `DELETE` passes the validator (which
only checks other invariants) and is forwarded to the execution gateway. -/
theorem c5_counterexample :
    (askHandler c5DelOracles (some "q".toList)).execTrace =
      ["DELETE FROM profiles p WHERE a = 1 LIMIT 5".toList] ∧
    specWriteVerbLeading "DELETE FROM profiles p WHERE a = 1 LIMIT 5".toList = true ∧
    (askHandler c5DelOracles (some "q".toList)).response.success = some true := by
  exact ⟨by decide, by decide, by decide⟩

/-- Oracles that throw a quota error during SQL generation. -/
def c9ThrowOracles : AskOracles :=
  ⟨.ok "ctx".toList, .ok [], .error "quota exceeded".toList,
   fun _ _ _ => .ok [], fun _ => .result none, false, .ok none⟩

/-- C9 counterexample: the rate-limit failure path answers `success = false`
without the last attempted query text and without the extracted intent,
contradicting "every response with success=false includes" them. -/
theorem c9_counterexample :
    (askHandler c9ThrowOracles (some "q".toList)).response.success = some false ∧
    (askHandler c9ThrowOracles (some "q".toList)).response.status = 429 ∧
    (askHandler c9ThrowOracles (some "q".toList)).response.generated_sql = none ∧
    (askHandler c9ThrowOracles (some "q".toList)).response.extracted_intent = none := by
  exact ⟨by decide, by decide, by decide, by decide⟩

/-- Oracles whose database always throws, driving the loop to its terminal
422 failure. -/
def c9FailOracles : AskOracles :=
  ⟨.ok "ctx".toList, .ok [], .ok "SELECT p.profile_id FROM profiles p LIMIT 50".toList,
   fun _ _ _ => .ok "SELECT p.profile_id FROM profiles p LIMIT 50".toList,
   fun _ => .throwErr "boom".toList, false, .ok none⟩

/-- C9 witness: a concrete run reaching the 422 terminal failure, which does
carry the query text, intent and error. -/
theorem c9_terminal_failure_witness :
    ((askHandler c9FailOracles (some "q".toList)).response.status = 422) ∧
    ((askHandler c9FailOracles (some "q".toList)).response.generated_sql.isSome = true ∧
     (askHandler c9FailOracles (some "q".toList)).response.extracted_intent.isSome = true ∧
     (askHandler c9FailOracles (some "q".toList)).response.error.isSome = true) :=
  ⟨by decide,
   c9_terminal_failure_includes_sql_intent c9FailOracles (some "q".toList) (by decide)⟩

/-- C6 witness: the amended statement at a concrete covered intent. -/
theorem c6_builder_silently_skips_witness :
    (buildSqlFromIntent [(⟨"city".toList, "pune".toList⟩ : ExtractedIntent)] = [] ↔
      [(⟨"city".toList, "pune".toList⟩ : ExtractedIntent)] = []) ∧
    buildConditions (normalizeIntentList [(⟨"city".toList, "pune".toList⟩ : ExtractedIntent)]) =
      ((normalizeIntentList [(⟨"city".toList, "pune".toList⟩ : ExtractedIntent)]).filter
        coveredItem).map (fun i => (condOfItem i).getD []) ∧
    (∀ o : AskOracles, [(⟨"city".toList, "pune".toList⟩ : ExtractedIntent)] ≠ [] →
      generateMatrimonialSQLModel o [(⟨"city".toList, "pune".toList⟩ : ExtractedIntent)] =
        .ok (buildSqlFromIntent [(⟨"city".toList, "pune".toList⟩ : ExtractedIntent)])) :=
  c6_builder_silently_skips [(⟨"city".toList, "pune".toList⟩ : ExtractedIntent)]
